import Mathlib

/-!
Anti-fraud dApp client: session and workflow core.

A shallow embedding of the state-handling code of `client/src/App.js`:
the React state of the `App` component is one `Session` record, every
handler is a function on sessions, and every remote call is answered by a
`Gateway` record that says what the call returns (or how it fails) at the
moment the handler runs.  Every handler also writes a log of the calls it
issues, so that statements about which remote calls were made can be
expressed.

Modelling conventions:
* `Number(x)` on the ledger's integers (`transactionCounter`, `tx.id`,
  `user.status`) is the identity on `Nat`: exact below `2 ^ 53`.
* `x || ''` on a string and `x || 0` on an integer are the identity.
* `console.error` has no effect on the state and is left out.
* `ethers` and the JavaScript string library are parameters (`Lib`).
* A call that the source does not `await` lands its effects after the
  remaining synchronous steps of the handler that started it, and its log
  entries follow theirs.
* A handler function (`connectWallet`, `handlePayment`, ...) is one whole
  run with nothing happening in between.  The completion of a run of
  `fetchTransactionHistory` or `refreshUser` that outlives its session is
  the same function applied to the session it completes on.
* The page over time (`PageState`) cuts every handler at its `await`s: the
  stretch up to the first `await` runs at the click, each later stretch
  when its `await` settles, and clicks that the page offers may come in
  between.  A history scan writes nothing before it ends, so an awaited
  scan is one stretch.  The timed removal of the toast and the clipboard
  button (which only write the toast) are left out.
-/

namespace AntiFraud

/-! ## Data model -/

/-- Error objects as the handlers read them: `error.reason` and
`error.data.message`, each possibly absent. -/
structure JsError where
  reason : Option String
  dataMessage : Option String
deriving DecidableEq, Repr

/-- What `contract.getTransaction(i)` resolves to. -/
structure Transaction where
  id : Nat
  from_ : String
  to_ : String
  amount : Nat
  timestamp : Nat
  status : String
deriving DecidableEq, Repr

/-- What `contract.getUser(a)` resolves to; status `1` is Active. -/
structure User where
  name : String
  balance : Nat
  status : Nat
deriving DecidableEq, Repr

/-- The object pushed on `history` in `fetchTransactionHistory`. -/
structure HistoryEntry where
  id : Nat
  from_ : String
  to_ : String
  counterparty : String
  role : String
  amount : String
  timestamp : String
  status : String
deriving DecidableEq, Repr

/-- The value of a JavaScript `Number(s)` on a string. -/
inductive JsNumber where
  | nan
  | negInf
  | posInf
  | num (q : ℚ)
deriving DecidableEq

/-- JavaScript `isNaN`. -/
def JsNumber.isNaN : JsNumber → Bool
  | .nan => true
  | _ => false

/-- JavaScript `x <= 0`; every comparison with NaN is false. -/
def JsNumber.leZero : JsNumber → Bool
  | .nan => false
  | .negInf => true
  | .posInf => false
  | .num q => decide (q ≤ 0)

/-- Library functions the handlers call: the string library and `ethers`. -/
structure Lib where
  toLowerCase : String → String
  isAddress : String → Bool
  formatEther : Nat → String
  parseEther : String → Except JsError Nat
  Number : String → JsNumber
  toLocaleString : Nat → String

/-- The `ethers.Contract` object held in the `contract` state: the fixed
contract address bound to a signer. -/
structure ContractHandle where
  signer : String
deriving DecidableEq, Repr

/-- A notification as stored by `setToast`. -/
structure Toast where
  message : String
  type : String
deriving DecidableEq, Repr

/-- The `useState` cells of `App`. -/
structure Session where
  account : Option String
  contract : Option ContractHandle
  isOwner : Bool
  userName : String
  userBalance : String
  isLoading : Bool
  transactions : List HistoryEntry
  view : String
  toast : Option Toast
  registerName : String
  paymentRecipient : String
  paymentAmount : String
  adminAddress : String
  adminStatus : Nat
deriving DecidableEq, Repr

/-- The initial values given to `useState`. -/
def Session.initial : Session where
  account := none
  contract := none
  isOwner := false
  userName := ""
  userBalance := "0.0"
  isLoading := false
  transactions := []
  view := "dashboard"
  toast := none
  registerName := ""
  paymentRecipient := ""
  paymentAmount := ""
  adminAddress := ""
  adminStatus := 1

/-- Answers of the outside world to the calls of one handler run.  A
mutating call answers twice: when it is sent and when `tx.wait()` settles. -/
structure Gateway where
  hasEthereum : Bool
  requestAccounts : Except JsError (List String)
  getSigner : Except JsError String
  owner : Except JsError String
  getUser : Option String → Except JsError User
  transactionCounter : Except JsError Nat
  getTransaction : Nat → Except JsError Transaction
  registerUser : String → Except JsError (Except JsError Unit)
  makePayment : String → Nat → Except JsError (Except JsError Unit)
  setUserStatus : String → Nat → Except JsError (Except JsError Unit)

/-- Observable steps of a handler: remote calls, busy-flag writes and
notifications. -/
inductive Event where
  | requestAccounts
  | getSigner
  | owner
  | getUser (a : Option String)
  | transactionCounter
  | getTransaction (i : Nat)
  | registerUser (name : String)
  | makePayment (to_ : String) (amount : Nat)
  | setUserStatus (addr : String) (status : Nat)
  | wait
  | setIsLoading (b : Bool)
  | showToast (message : String) (type : String)
deriving DecidableEq, Repr

/-- Whether the event is a call to the gateway (read or mutating). -/
def Event.isGatewayCall : Event → Bool
  | .setIsLoading _ => false
  | .showToast _ _ => false
  | _ => true

/-- A handler in progress: the session so far and the log so far. -/
structure Run where
  s : Session
  log : List Event
deriving DecidableEq, Repr

/-- JavaScript truthiness of a string. -/
def truthy (x : String) : Bool := x != ""

/-- JavaScript truthiness of a string that may be `null` or `undefined`. -/
def truthyOpt : Option String → Bool
  | none => false
  | some x => truthy x

/-! ## State writes -/

def emit (e : Event) (r : Run) : Run :=
  { r with log := r.log ++ [e] }

def emitAll (es : List Event) (r : Run) : Run :=
  { r with log := r.log ++ es }

/-- The helper `showToast`: stores the notification (its timed removal is
not modelled). -/
def showToast (message type : String) (r : Run) : Run :=
  emit (.showToast message type) { r with s := { r.s with toast := some ⟨message, type⟩ } }

def setIsLoading (b : Bool) (r : Run) : Run :=
  emit (.setIsLoading b) { r with s := { r.s with isLoading := b } }

def setTransactions (h : List HistoryEntry) (r : Run) : Run :=
  { r with s := { r.s with transactions := h } }

def setUserName (n : String) (r : Run) : Run :=
  { r with s := { r.s with userName := n } }

def setUserBalance (b : String) (r : Run) : Run :=
  { r with s := { r.s with userBalance := b } }

def setAccount (a : Option String) (r : Run) : Run :=
  { r with s := { r.s with account := a } }

def setContract (c : Option ContractHandle) (r : Run) : Run :=
  { r with s := { r.s with contract := c } }

def setIsOwner (b : Bool) (r : Run) : Run :=
  { r with s := { r.s with isOwner := b } }

def setView (v : String) (r : Run) : Run :=
  { r with s := { r.s with view := v } }

def setPaymentRecipient (x : String) (r : Run) : Run :=
  { r with s := { r.s with paymentRecipient := x } }

def setPaymentAmount (x : String) (r : Run) : Run :=
  { r with s := { r.s with paymentAmount := x } }

def setAdminAddress (x : String) (r : Run) : Run :=
  { r with s := { r.s with adminAddress := x } }

/-! ## fetchTransactionHistory -/

/-- The object literal passed to `history.push`, with the `role` and
`counterparty` computed just before it. -/
def historyEntry (L : Lib) (acctLower : String) (tx : Transaction) : HistoryEntry :=
  let from_ := L.toLowerCase tx.from_
  let role := if from_ = acctLower then "sent" else "received"
  let counterparty := if role = "sent" then tx.to_ else tx.from_
  { id := tx.id, from_ := tx.from_, to_ := tx.to_,
    counterparty := counterparty, role := role,
    amount := L.formatEther tx.amount,
    timestamp := L.toLocaleString (tx.timestamp * 1000),
    status := tx.status }

/-- The body of the `for` loop for one fetched transaction: the entry is
pushed when the account is `from` or `to`, compared in lower case. -/
def pushIfMatch (L : Lib) (acctLower : String) (tx : Transaction)
    (history : List HistoryEntry) : List HistoryEntry :=
  let from_ := L.toLowerCase tx.from_
  let to_ := L.toLowerCase tx.to_
  if from_ = acctLower ∨ to_ = acctLower then
    history ++ [historyEntry L acctLower tx]
  else history

/-- The loop `for (let i = count; i >= 1; i--)`: the first argument is the
current `i`.  A failed `getTransaction` leaves the loop with the error. -/
def historyLoop (L : Lib) (gw : Gateway) (acctLower : String) :
    Nat → List HistoryEntry → Except JsError (List HistoryEntry) × List Event
  | 0, history => (.ok history, [])
  | i + 1, history =>
    match gw.getTransaction (i + 1) with
    | .error e => (.error e, [.getTransaction (i + 1)])
    | .ok tx =>
      let rest := historyLoop L gw acctLower i (pushIfMatch L acctLower tx history)
      (rest.1, .getTransaction (i + 1) :: rest.2)

/-- The function `fetchTransactionHistory(currentContract, connectedAccount)`. -/
def fetchTransactionHistory (L : Lib) (gw : Gateway)
    (currentContract : Option ContractHandle) (connectedAccount : Option String)
    (r : Run) : Run :=
  match currentContract, connectedAccount with
  | some _, some acct =>
    if truthy acct then
      match gw.transactionCounter with
      | .error _ => showToast "Failed to load history" "error" (emit .transactionCounter r)
      | .ok count =>
        match historyLoop L gw (L.toLowerCase acct) count [] with
        | (.error _, calls) =>
          showToast "Failed to load history" "error" (emitAll (.transactionCounter :: calls) r)
        | (.ok history, calls) =>
          setTransactions history (emitAll (.transactionCounter :: calls) r)
    else r
  | _, _ => r

/-! ## Profile refresh, connect and disconnect -/

/-- The function `refreshUser(antiFraudContract, connectedAccount)`. -/
def refreshUser (L : Lib) (gw : Gateway)
    (antiFraudContract : Option ContractHandle) (connectedAccount : Option String)
    (r : Run) : Run :=
  match antiFraudContract, connectedAccount with
  | some _, some acct =>
    if truthy acct then
      match gw.getUser (some acct) with
      | .error _ => emit (.getUser (some acct)) r
      | .ok user =>
        setUserBalance (L.formatEther user.balance)
          (setUserName user.name (emit (.getUser (some acct)) r))
    else r
  | _, _ => r

/-- The function `disconnectWallet`. -/
def disconnectWallet (s : Session) : Run :=
  let r : Run := ⟨s, []⟩
  let r := setAccount none r
  let r := setContract none r
  let r := setIsOwner false r
  let r := setUserName "" r
  let r := setUserBalance "0.0" r
  let r := setTransactions [] r
  let r := setView "dashboard" r
  showToast "Disconnected" "info" r

/-- The `catch` and `finally` blocks of `connectWallet`. -/
def connectFailed (r : Run) : Run :=
  setIsLoading false (showToast "Failed to connect wallet" "error" r)

/-- The function `connectWallet`.  `accounts[0]` of an empty answer is
`undefined`, on which `toLowerCase` throws. -/
def connectWallet (L : Lib) (gw : Gateway) (s : Session) : Run :=
  let r : Run := ⟨s, []⟩
  if gw.hasEthereum then
    let r := setIsLoading true r
    let r := emit .requestAccounts r
    match gw.requestAccounts with
    | .error _ => connectFailed r
    | .ok accounts =>
      let r := emit .getSigner r
      match gw.getSigner with
      | .error _ => connectFailed r
      | .ok signer =>
        let connectedAccount := accounts.head?
        let r := setAccount connectedAccount r
        let antiFraudContract : Option ContractHandle := some ⟨signer⟩
        let r := setContract antiFraudContract r
        let r := emit .owner r
        match gw.owner with
        | .error _ => connectFailed r
        | .ok ownerAddress =>
          match connectedAccount with
          | none => connectFailed r
          | some acct =>
            let r := setIsOwner (L.toLowerCase acct == L.toLowerCase ownerAddress) r
            let r := emit (.getUser (some acct)) r
            match gw.getUser (some acct) with
            | .error _ => connectFailed r
            | .ok user =>
              if user.status = 1 then
                let r := setUserName user.name r
                let r := setUserBalance (L.formatEther user.balance) r
                let r := showToast "Wallet connected" "success" r
                let r := setIsLoading false r
                fetchTransactionHistory L gw antiFraudContract connectedAccount r
              else
                let r := setUserName "" r
                let r := setUserBalance "0.0" r
                let r := showToast "Wallet connected" "success" r
                setIsLoading false r
  else showToast "Install MetaMask to use this dApp" "error" r

/-! ## Mutating handlers -/

/-- The expression `a || b` where `a` may be absent and `b` is a string. -/
def orElse (a : Option String) (b : String) : String :=
  match a with
  | some x => if truthy x then x else b
  | none => b

/-- The expression
`error.reason || (error.data && error.data.message) || "An unknown error occurred."`. -/
def errorReason (e : JsError) : String :=
  orElse e.reason (orElse e.dataMessage "An unknown error occurred.")

/-- The `catch` and `finally` blocks of `handleRegister`. -/
def registerFailed (e : JsError) (r : Run) : Run :=
  setIsLoading false (showToast ("Registration failed: " ++ errorReason e) "error" r)

/-- The function `handleRegister`. -/
def handleRegister (L : Lib) (gw : Gateway) (s : Session) : Run :=
  let r : Run := ⟨s, []⟩
  match s.contract with
  | none => r
  | some _ =>
    if truthy s.registerName then
      let r := setIsLoading true r
      let r := emit (.registerUser s.registerName) r
      match gw.registerUser s.registerName with
      | .error e => registerFailed e r
      | .ok tx =>
        let r := emit .wait r
        match tx with
        | .error e => registerFailed e r
        | .ok _ =>
          let r := showToast "Registration successful!" "success" r
          let r := emit (.getUser s.account) r
          match gw.getUser s.account with
          | .error e => registerFailed e r
          | .ok user =>
            if user.status = 1 then
              let r := setUserName user.name r
              let r := setUserBalance (L.formatEther user.balance) r
              let r := setIsLoading false r
              fetchTransactionHistory L gw s.contract s.account r
            else setIsLoading false r
    else r

/-- The `catch` and `finally` blocks of `handlePayment`: the history is
fetched again (awaited) before the failure is shown. -/
def paymentFailed (L : Lib) (gw : Gateway) (s : Session) (e : JsError) (r : Run) : Run :=
  let reason := errorReason e
  let r := fetchTransactionHistory L gw s.contract s.account r
  let r := showToast ("Payment failed: " ++ reason) "error" r
  setIsLoading false r

/-- The function `handlePayment`. -/
def handlePayment (L : Lib) (gw : Gateway) (s : Session) : Run :=
  let r : Run := ⟨s, []⟩
  match s.contract with
  | none => r
  | some _ =>
    if truthy s.paymentRecipient && truthy s.paymentAmount then
      if !L.isAddress s.paymentRecipient then
        showToast "Invalid recipient address" "error" r
      else if (L.Number s.paymentAmount).isNaN || (L.Number s.paymentAmount).leZero then
        showToast "Invalid amount" "error" r
      else
        let r := setIsLoading true r
        match L.parseEther s.paymentAmount with
        | .error e => paymentFailed L gw s e r
        | .ok amountInWei =>
          let r := emit (.makePayment s.paymentRecipient amountInWei) r
          match gw.makePayment s.paymentRecipient amountInWei with
          | .error e => paymentFailed L gw s e r
          | .ok tx =>
            let r := emit .wait r
            match tx with
            | .error e => paymentFailed L gw s e r
            | .ok _ =>
              let r := showToast "Payment successful!" "success" r
              let r := refreshUser L gw s.contract s.account r
              let r := setPaymentRecipient "" r
              let r := setPaymentAmount "" r
              let r := setIsLoading false r
              fetchTransactionHistory L gw s.contract s.account r
    else r

/-- The helper `truncate(addr)` with its default `start = 6`, `end = 4`. -/
def truncate (addr : String) : String :=
  if truthy addr then addr.take 6 ++ "..." ++ addr.drop (addr.length - 4) else ""

/-- The `catch` and `finally` blocks of `handleSetUserStatus`. -/
def setUserStatusFailed (e : JsError) (r : Run) : Run :=
  setIsLoading false (showToast ("Failed to set user status: " ++ errorReason e) "error" r)

/-- The function `handleSetUserStatus`. -/
def handleSetUserStatus (L : Lib) (gw : Gateway) (s : Session) : Run :=
  let r : Run := ⟨s, []⟩
  match s.contract with
  | none => r
  | some _ =>
    if truthy s.adminAddress then
      if !L.isAddress s.adminAddress then
        showToast "Invalid user address" "error" r
      else
        let r := setIsLoading true r
        let r := emit (.setUserStatus s.adminAddress s.adminStatus) r
        match gw.setUserStatus s.adminAddress s.adminStatus with
        | .error e => setUserStatusFailed e r
        | .ok tx =>
          let r := emit .wait r
          match tx with
          | .error e => setUserStatusFailed e r
          | .ok _ =>
            let r := showToast ("User status updated for " ++ truncate s.adminAddress) "success" r
            let r := setAdminAddress "" r
            setIsLoading false r
    else r

/-- The function `refreshAll`; neither awaited call can throw, so the
`catch` block is never entered. -/
def refreshAll (L : Lib) (gw : Gateway) (s : Session) : Run :=
  let r : Run := ⟨s, []⟩
  match s.contract with
  | none => r
  | some _ =>
    if truthyOpt s.account then
      let r := setIsLoading true r
      let r := refreshUser L gw s.contract s.account r
      let r := fetchTransactionHistory L gw s.contract s.account r
      let r := showToast "Refreshed" "info" r
      setIsLoading false r
    else r

/-! ## Specification vocabulary -/

/-- The account takes part in the transaction: it is `from` or `to`,
compared in lower case. -/
def participates (L : Lib) (A : String) (t : Transaction) : Bool :=
  decide (L.toLowerCase t.from_ = L.toLowerCase A) ||
    decide (L.toLowerCase t.to_ = L.toLowerCase A)

/-- The gateway serves the ledger `txs`: the counter is its length and
transaction `i` (ids from 1) is its `i`-th element, whose id is `i`. -/
def Gateway.servesLedger (gw : Gateway) (txs : List Transaction) : Prop :=
  gw.transactionCounter = .ok txs.length ∧
    ∀ i t, txs[i]? = some t → gw.getTransaction (i + 1) = .ok t ∧ t.id = i + 1

/-- Number of gateway calls of one kind in a log. -/
def countCalls (p : Event → Bool) (log : List Event) : Nat :=
  log.countP p

def Event.isGetUser : Event → Bool
  | .getUser _ => true
  | _ => false

def Event.isTransactionCounter : Event → Bool
  | .transactionCounter => true
  | _ => false

def Event.isMakePayment : Event → Bool
  | .makePayment _ _ => true
  | _ => false

def Event.isSetIsLoading : Event → Bool
  | .setIsLoading _ => true
  | _ => false

/-- The list that a run of `fetchTransactionHistory` leaves in the
`transactions` state. -/
def publishedHistory (L : Lib) (gw : Gateway) (c : ContractHandle) (A : String)
    (r : Run) : List HistoryEntry :=
  (fetchTransactionHistory L gw (some c) (some A) r).s.transactions

/-! ## Concrete instances -/

/-- Value of a non-empty string of decimal digits. -/
def digitsToNat (cs : List Char) : Option Nat :=
  if cs ≠ [] ∧ cs.all Char.isDigit then
    some (cs.foldl (fun n c => 10 * n + (c.toNat - 48)) 0)
  else none

/-- A sample library for concrete instances.  It agrees with JavaScript and
`ethers` on lower-case hexadecimal addresses, on unsigned decimal integers
and on whole amounts of ether; dates are shown as their number. -/
def sampleLib : Lib where
  toLowerCase x := ⟨x.data.map Char.toLower⟩
  isAddress x :=
    x.data.length == 42 && x.data.take 2 == ['0', 'x'] &&
      (x.data.drop 2).all fun c => c.isDigit || ('a' ≤ c && c ≤ 'f')
  formatEther n :=
    if n % 10 ^ 18 = 0 then toString (n / 10 ^ 18) ++ ".0" else toString n ++ " wei"
  parseEther x :=
    match digitsToNat x.data with
    | some n => .ok (n * 10 ^ 18)
    | none => .error ⟨none, none⟩
  Number x :=
    if x = "" then .num 0 else
      match digitsToNat x.data with
      | some n => .num n
      | none => .nan
  toLocaleString n := toString n

def alice : String := "0xaaaaaaaaaaaaaaaaaaaaaaaaaaaaaaaaaaaaaaaa"

def bob : String := "0xbbbbbbbbbbbbbbbbbbbbbbbbbbbbbbbbbbbbbbbb"

def carol : String := "0xcccccccccccccccccccccccccccccccccccccccc"

/-- A ledger of three transactions: alice to bob, bob to carol, carol to
alice. -/
def sampleLedger : List Transaction :=
  [ { id := 1, from_ := alice, to_ := bob, amount := 10 ^ 18, timestamp := 100,
      status := "Completed" },
    { id := 2, from_ := bob, to_ := carol, amount := 2 * 10 ^ 18, timestamp := 200,
      status := "Completed" },
    { id := 3, from_ := carol, to_ := alice, amount := 3 * 10 ^ 18, timestamp := 300,
      status := "Flagged" } ]

/-- A gateway answering from a ledger list and a table of users: every
read succeeds on known data, every mutating call is accepted. -/
def ledgerGateway (txs : List Transaction) (ownerAddress : String)
    (users : Option String → Except JsError User) : Gateway where
  hasEthereum := true
  requestAccounts := .ok [alice]
  getSigner := .ok alice
  owner := .ok ownerAddress
  getUser := users
  transactionCounter := .ok txs.length
  getTransaction i :=
    match i with
    | 0 => .error ⟨none, none⟩
    | j + 1 =>
      match txs[j]? with
      | some t => .ok t
      | none => .error ⟨none, none⟩
  registerUser _ := .ok (.ok ())
  makePayment _ _ := .ok (.ok ())
  setUserStatus _ _ := .ok (.ok ())

/-- Every account is an active user called Alice holding five ether. -/
def activeUsers : Option String → Except JsError User :=
  fun _ => .ok { name := "Alice", balance := 5 * 10 ^ 18, status := 1 }

def sampleGateway : Gateway := ledgerGateway sampleLedger alice activeUsers

/-- A session connected as alice, registered, with nothing loaded yet. -/
def aliceSession : Session :=
  { Session.initial with
    account := some alice, contract := some ⟨alice⟩, userName := "Alice",
    userBalance := "5.0" }

/-- The sample gateway with a transport failure on transaction 2. -/
def brokenGateway : Gateway :=
  { sampleGateway with
    getTransaction := fun i =>
      if i = 2 then .error ⟨none, none⟩ else sampleGateway.getTransaction i }

/-- The session of alice with one entry already on display. -/
def aliceLoaded : Session :=
  { aliceSession with
    transactions := [historyEntry sampleLib alice
      { id := 1, from_ := alice, to_ := bob, amount := 10 ^ 18, timestamp := 100,
        status := "Completed" }] }

/-- A ledger with a single transaction from alice to herself, the
recipient written in upper case. -/
def selfLedger : List Transaction :=
  [ { id := 1, from_ := alice, to_ := "0xAAAAAAAAAAAAAAAAAAAAAAAAAAAAAAAAAAAAAAAA",
      amount := 10 ^ 18, timestamp := 100, status := "Completed" } ]

def selfGateway : Gateway := ledgerGateway selfLedger alice activeUsers

/-- The local validation of `handlePayment` passes: a contract is set, both
fields are filled, the recipient is an address and the amount is a number
above zero. -/
def paymentValid (L : Lib) (s : Session) : Bool :=
  s.contract.isSome && truthy s.paymentRecipient && truthy s.paymentAmount &&
    L.isAddress s.paymentRecipient &&
    !((L.Number s.paymentAmount).isNaN || (L.Number s.paymentAmount).leZero)

/-- The remote part of a payment succeeds: the amount converts to wei,
`makePayment` is accepted and `tx.wait()` confirms it. -/
def paymentSucceeds (L : Lib) (gw : Gateway) (s : Session) : Bool :=
  match L.parseEther s.paymentAmount with
  | .error _ => false
  | .ok amountInWei =>
    match gw.makePayment s.paymentRecipient amountInWei with
    | .ok (.ok _) => true
    | _ => false

/-- The sample gateway where the ledger rejects every payment with a
reason. -/
def rejectingGateway : Gateway :=
  { sampleGateway with
    makePayment := fun _ _ => .error ⟨some "amount exceeds limit", none⟩ }

/-- The session of alice with the payment form filled in: one ether to bob. -/
def alicePaying : Session :=
  { aliceSession with paymentRecipient := bob, paymentAmount := "1" }

/-- The payment form leads to a `makePayment` call: it passes the local
validation and the amount converts to wei.  Only the library and the session
are consulted, never the gateway. -/
def paymentSubmits (L : Lib) (s : Session) : Bool :=
  paymentValid L s &&
    match L.parseEther s.paymentAmount with
    | .ok _ => true
    | .error _ => false

/-- A handler run that stopped at its local validation: the log holds no
gateway call and no busy-flag write, and the busy flag, the account and the
cached profile and history are those of the session it started from. -/
def shortCircuited (s : Session) (r : Run) : Prop :=
  (∀ e ∈ r.log, e.isGatewayCall = false ∧ e.isSetIsLoading = false) ∧
    r.s.isLoading = s.isLoading ∧ r.s.account = s.account ∧
    r.s.userName = s.userName ∧ r.s.userBalance = s.userBalance ∧
    r.s.transactions = s.transactions

/-- Every account is the suspended user Alice holding five ether. -/
def suspendedUsers : Option String → Except JsError User :=
  fun _ => .ok { name := "Alice", balance := 5 * 10 ^ 18, status := 2 }

/-- The sample gateway once the owner has suspended every account. -/
def suspendedGateway : Gateway := ledgerGateway sampleLedger alice suspendedUsers

/-- The session of alice with a blank cached profile. -/
def aliceBlank : Session :=
  { aliceSession with userName := "", userBalance := "0.0" }

/-- The session of alice with all three forms filled in wrongly: no name,
a recipient and a user address that are not addresses, a negative amount. -/
def aliceInvalidForms : Session :=
  { aliceSession with
    registerName := "", paymentRecipient := "bob", paymentAmount := "-1",
    adminAddress := "nobody" }

/-- The sample gateway where `getUser` fails. -/
def offlineUsersGateway : Gateway :=
  ledgerGateway sampleLedger alice fun _ => .error ⟨none, none⟩

/-! ## Sessions over time -/

/-- A whole handler run, with the answers the outside world gives during
it, or a single write of the view or of a form field, taken as one step. -/
inductive Action where
  | connect (gw : Gateway)
  | disconnect
  | register (gw : Gateway)
  | pay (gw : Gateway)
  | setStatus (gw : Gateway)
  | refresh (gw : Gateway)
  | setView (v : String)
  | setRegisterName (x : String)
  | setPaymentRecipient (x : String)
  | setPaymentAmount (x : String)
  | setAdminAddress (x : String)
  | setAdminStatus (n : Nat)

/-- The session after the action. -/
def Action.run (L : Lib) : Action → Session → Session
  | .connect gw, s => (connectWallet L gw s).s
  | .disconnect, s => (disconnectWallet s).s
  | .register gw, s => (handleRegister L gw s).s
  | .pay gw, s => (handlePayment L gw s).s
  | .setStatus gw, s => (handleSetUserStatus L gw s).s
  | .refresh gw, s => (refreshAll L gw s).s
  | .setView v, s => { s with view := v }
  | .setRegisterName x, s => { s with registerName := x }
  | .setPaymentRecipient x, s => { s with paymentRecipient := x }
  | .setPaymentAmount x, s => { s with paymentAmount := x }
  | .setAdminAddress x, s => { s with adminAddress := x }
  | .setAdminStatus n, s => { s with adminStatus := n }

/-- Whenever `owner()` answers, it answers `O`. -/
def Gateway.ownerIs (gw : Gateway) (O : String) : Prop :=
  ∀ o, gw.owner = .ok o → o = O

/-- The main content renders `AdminView`: an account is set, a user name is
set, and `isOwner && view === 'admin'` holds. -/
def adminViewRendered (s : Session) : Bool :=
  truthyOpt s.account && truthy s.userName && s.isOwner && s.view == "admin"

/-! ## Rendering and further instances -/

/-- The main content renders `RegisterView`: an account is set and the
cached user name is empty (`!account ? ... : !userName ? <RegisterView />`). -/
def registerViewRendered (s : Session) : Bool :=
  truthyOpt s.account && !truthy s.userName

/-- The attribute `disabled` of the submit button of every form
(register, both payment forms, set-status): `disabled={isLoading}`. -/
def submitDisabled (s : Session) : Bool := s.isLoading

/-- The no-account baseline: the values `useState` starts with and
`disconnectWallet` restores. -/
def isBaseline (s : Session) : Prop :=
  s.account = none ∧ s.contract = none ∧ s.isOwner = false ∧ s.userName = "" ∧
    s.userBalance = "0.0" ∧ s.transactions = [] ∧ s.view = "dashboard"

/-- The event is the write `setIsLoading(true)`. -/
def Event.setsBusy : Event → Bool
  | .setIsLoading true => true
  | _ => false

/-- Every account has the status 0 (not Active), and the ledger still
answers a name and a balance for it. -/
def unregisteredUsers : Option String → Except JsError User :=
  fun _ => .ok { name := "Ghost", balance := 7 * 10 ^ 18, status := 0 }

def unregisteredGateway : Gateway := ledgerGateway sampleLedger carol unregisteredUsers

/-- The session of alice, connected and not yet registered, with the
register form filled in. -/
def aliceRegistering : Session :=
  { aliceBlank with registerName := "Alice" }

/-- The sample gateway where `makePayment` fails with an error that has no
`reason` but carries `data.message`. -/
def revertingGateway : Gateway :=
  { sampleGateway with
    makePayment := fun _ _ => .error ⟨none, some "execution reverted"⟩ }

/-- The sample gateway where `setUserStatus` is rejected with a reason. -/
def ownerOnlyGateway : Gateway :=
  { sampleGateway with
    setUserStatus := fun _ _ => .error ⟨some "Only owner can call this", none⟩ }

/-- The loaded session of alice with the admin form asking to suspend bob. -/
def aliceSuspendingBob : Session :=
  { aliceLoaded with adminAddress := bob, adminStatus := 2 }

/-- The sample gateway as the wallet of bob sees it. -/
def bobGateway : Gateway :=
  { sampleGateway with requestAccounts := .ok [bob], getSigner := .ok bob }

/-- The session after alice disconnects and bob connects, bob's own history
loaded. -/
def bobSession : Session :=
  (Action.connect bobGateway).run sampleLib
    (Action.disconnect.run sampleLib aliceLoaded)

/-- The sample gateway where `owner()` fails. -/
def ownerlessGateway : Gateway :=
  { sampleGateway with owner := .error ⟨none, none⟩ }

/-- The sample gateway where the user declines the authorization. -/
def declinedGateway : Gateway :=
  { sampleGateway with requestAccounts := .error ⟨none, none⟩ }

/-! ## The page over time -/

/-- A run of `fetchTransactionHistory` that was started without `await`:
the gateway that answers it and its two arguments. -/
structure Detached where
  gw : Gateway
  contract : Option ContractHandle
  account : Option String

/-- A handler suspended at an `await`, named after the call it waits for,
with the gateway that will answer and the values its closure holds (`s` is
the session the handler was created from). -/
inductive InFlight where
  | connectAccounts (gw : Gateway)
  | connectSigner (gw : Gateway) (accounts : List String)
  | connectOwner (gw : Gateway) (connectedAccount : Option String)
      (antiFraudContract : ContractHandle)
  | connectUser (gw : Gateway) (connectedAccount : String)
      (antiFraudContract : ContractHandle)
  | registerSent (gw : Gateway) (s : Session)
  | registerWait (gw : Gateway) (s : Session) (tx : Except JsError Unit)
  | registerProfile (gw : Gateway) (s : Session)
  | paySent (gw : Gateway) (s : Session) (amountInWei : Nat)
  | payWait (gw : Gateway) (s : Session) (tx : Except JsError Unit)
  | payProfile (gw : Gateway) (s : Session)
  | payFailed (gw : Gateway) (s : Session) (e : JsError)
  | statusSent (gw : Gateway) (s : Session)
  | statusWait (gw : Gateway) (s : Session) (tx : Except JsError Unit)
  | refreshProfile (gw : Gateway) (s : Session)
  | refreshHistory (gw : Gateway) (s : Session)

/-- What one stretch of a handler leaves behind: the session and log after
its writes, the `await` the handler is suspended at (none when it has
returned) and the history run it started without `await`, if any. -/
structure Resumed where
  run : Run
  next : Option InFlight
  started : Option Detached

/-- The stretch of `connectWallet` from the click to its first `await`. -/
def startConnect (gw : Gateway) (r : Run) : Resumed :=
  if gw.hasEthereum then
    ⟨emit .requestAccounts (setIsLoading true r), some (.connectAccounts gw), none⟩
  else ⟨showToast "Install MetaMask to use this dApp" "error" r, none, none⟩

/-- The stretch of `handleRegister` from the submit to its first `await`. -/
def startRegister (gw : Gateway) (r : Run) : Resumed :=
  match r.s.contract with
  | none => ⟨r, none, none⟩
  | some _ =>
    if truthy r.s.registerName then
      ⟨emit (.registerUser r.s.registerName) (setIsLoading true r),
        some (.registerSent gw r.s), none⟩
    else ⟨r, none, none⟩

/-- The stretch of `handlePayment` from the submit to its first `await`;
when `parseEther` throws, that is the awaited history run of the `catch`
block. -/
def startPayment (L : Lib) (gw : Gateway) (r : Run) : Resumed :=
  match r.s.contract with
  | none => ⟨r, none, none⟩
  | some _ =>
    if truthy r.s.paymentRecipient && truthy r.s.paymentAmount then
      if !L.isAddress r.s.paymentRecipient then
        ⟨showToast "Invalid recipient address" "error" r, none, none⟩
      else if (L.Number r.s.paymentAmount).isNaN || (L.Number r.s.paymentAmount).leZero then
        ⟨showToast "Invalid amount" "error" r, none, none⟩
      else
        match L.parseEther r.s.paymentAmount with
        | .error e => ⟨setIsLoading true r, some (.payFailed gw r.s e), none⟩
        | .ok amountInWei =>
          ⟨emit (.makePayment r.s.paymentRecipient amountInWei) (setIsLoading true r),
            some (.paySent gw r.s amountInWei), none⟩
    else ⟨r, none, none⟩

/-- The stretch of `handleSetUserStatus` from the submit to its first
`await`. -/
def startSetUserStatus (L : Lib) (gw : Gateway) (r : Run) : Resumed :=
  match r.s.contract with
  | none => ⟨r, none, none⟩
  | some _ =>
    if truthy r.s.adminAddress then
      if !L.isAddress r.s.adminAddress then
        ⟨showToast "Invalid user address" "error" r, none, none⟩
      else
        ⟨emit (.setUserStatus r.s.adminAddress r.s.adminStatus) (setIsLoading true r),
          some (.statusSent gw r.s), none⟩
    else ⟨r, none, none⟩

/-- The stretch of `refreshAll` from the click to its first `await`. -/
def startRefresh (gw : Gateway) (r : Run) : Resumed :=
  match r.s.contract with
  | none => ⟨r, none, none⟩
  | some _ =>
    if truthyOpt r.s.account then
      ⟨setIsLoading true r, some (.refreshProfile gw r.s), none⟩
    else ⟨r, none, none⟩

/-- The handler goes on after the `await` it was suspended at has settled:
the stretch up to its next `await`, or to its return through `finally`. -/
def InFlight.resume (L : Lib) : InFlight → Run → Resumed
  | .connectAccounts gw, r =>
    match gw.requestAccounts with
    | .error _ => ⟨connectFailed r, none, none⟩
    | .ok accounts => ⟨emit .getSigner r, some (.connectSigner gw accounts), none⟩
  | .connectSigner gw accounts, r =>
    match gw.getSigner with
    | .error _ => ⟨connectFailed r, none, none⟩
    | .ok signer =>
      ⟨emit .owner (setContract (some ⟨signer⟩) (setAccount accounts.head? r)),
        some (.connectOwner gw accounts.head? ⟨signer⟩), none⟩
  | .connectOwner gw connectedAccount antiFraudContract, r =>
    match gw.owner with
    | .error _ => ⟨connectFailed r, none, none⟩
    | .ok ownerAddress =>
      match connectedAccount with
      | none => ⟨connectFailed r, none, none⟩
      | some acct =>
        ⟨emit (.getUser (some acct))
            (setIsOwner (L.toLowerCase acct == L.toLowerCase ownerAddress) r),
          some (.connectUser gw acct antiFraudContract), none⟩
  | .connectUser gw acct antiFraudContract, r =>
    match gw.getUser (some acct) with
    | .error _ => ⟨connectFailed r, none, none⟩
    | .ok user =>
      if user.status = 1 then
        ⟨setIsLoading false (showToast "Wallet connected" "success"
            (setUserBalance (L.formatEther user.balance) (setUserName user.name r))),
          none, some ⟨gw, some antiFraudContract, some acct⟩⟩
      else
        ⟨setIsLoading false (showToast "Wallet connected" "success"
            (setUserBalance "0.0" (setUserName "" r))), none, none⟩
  | .registerSent gw s, r =>
    match gw.registerUser s.registerName with
    | .error e => ⟨registerFailed e r, none, none⟩
    | .ok tx => ⟨emit .wait r, some (.registerWait gw s tx), none⟩
  | .registerWait gw s tx, r =>
    match tx with
    | .error e => ⟨registerFailed e r, none, none⟩
    | .ok _ =>
      ⟨emit (.getUser s.account) (showToast "Registration successful!" "success" r),
        some (.registerProfile gw s), none⟩
  | .registerProfile gw s, r =>
    match gw.getUser s.account with
    | .error e => ⟨registerFailed e r, none, none⟩
    | .ok user =>
      if user.status = 1 then
        ⟨setIsLoading false
            (setUserBalance (L.formatEther user.balance) (setUserName user.name r)),
          none, some ⟨gw, s.contract, s.account⟩⟩
      else ⟨setIsLoading false r, none, none⟩
  | .paySent gw s amountInWei, r =>
    match gw.makePayment s.paymentRecipient amountInWei with
    | .error e => ⟨r, some (.payFailed gw s e), none⟩
    | .ok tx => ⟨emit .wait r, some (.payWait gw s tx), none⟩
  | .payWait gw s tx, r =>
    match tx with
    | .error e => ⟨r, some (.payFailed gw s e), none⟩
    | .ok _ => ⟨showToast "Payment successful!" "success" r, some (.payProfile gw s), none⟩
  | .payProfile gw s, r =>
    ⟨setIsLoading false (setPaymentAmount "" (setPaymentRecipient ""
        (refreshUser L gw s.contract s.account r))),
      none, some ⟨gw, s.contract, s.account⟩⟩
  | .payFailed gw s e, r => ⟨paymentFailed L gw s e r, none, none⟩
  | .statusSent gw s, r =>
    match gw.setUserStatus s.adminAddress s.adminStatus with
    | .error e => ⟨setUserStatusFailed e r, none, none⟩
    | .ok tx => ⟨emit .wait r, some (.statusWait gw s tx), none⟩
  | .statusWait _ s tx, r =>
    match tx with
    | .error e => ⟨setUserStatusFailed e r, none, none⟩
    | .ok _ =>
      ⟨setIsLoading false (setAdminAddress ""
          (showToast ("User status updated for " ++ truncate s.adminAddress) "success" r)),
        none, none⟩
  | .refreshProfile gw s, r =>
    ⟨refreshUser L gw s.contract s.account r, some (.refreshHistory gw s), none⟩
  | .refreshHistory gw s, r =>
    ⟨setIsLoading false (showToast "Refreshed" "info"
        (fetchTransactionHistory L gw s.contract s.account r)), none, none⟩

/-- A detached history run completes on the run it finds. -/
def Detached.land (L : Lib) (d : Detached) (r : Run) : Run :=
  fetchTransactionHistory L d.gw d.contract d.account r

/-- The handler runs on with nothing in between until it returns, and the
history run it started then completes; `fuel` bounds the number of awaits. -/
def Resumed.finish (L : Lib) : Nat → Resumed → Run
  | fuel, ⟨r, next, started⟩ =>
    match next with
    | none =>
      match started with
      | none => r
      | some d => d.land L r
    | some h =>
      match fuel with
      | 0 => r
      | n + 1 => Resumed.finish L n (h.resume L r)

/-- The page at one moment: the React state with the log so far, the
handlers suspended at an `await`, and the history runs started without
`await` that have not completed yet. -/
structure PageState where
  run : Run
  inflight : List InFlight
  detached : List Detached

/-- The page as first rendered. -/
def PageState.initial : PageState := ⟨⟨Session.initial, []⟩, [], []⟩

/-- The page after a stretch: the new run, the other suspended handlers
`rest` together with this one if it is suspended again, and the history run
the stretch started. -/
def PageState.after (p : PageState) (rest : List InFlight) (x : Resumed) : PageState :=
  { run := x.run, inflight := rest ++ x.next.toList,
    detached := p.detached ++ x.started.toList }

/-! ### What the page renders -/

/-- The third branch of the main content: an account and a user name are
set, so the view chosen in the sidebar is shown. -/
def viewsRendered (s : Session) : Bool :=
  truthyOpt s.account && truthy s.userName

/-- Either Connect button can be clicked: they are rendered under
`!account` and carry `disabled={isLoading}`. -/
def connectOffered (s : Session) : Bool :=
  !truthyOpt s.account && !s.isLoading

/-- The register form can be submitted: `RegisterView` is rendered and its
submit button is not disabled. -/
def registerOffered (s : Session) : Bool :=
  registerViewRendered s && !submitDisabled s

/-- A payment form can be submitted: `PaymentViewCompact` (dashboard) or
`PaymentView` is rendered and its submit button is not disabled. -/
def paymentOffered (s : Session) : Bool :=
  viewsRendered s && (s.view == "dashboard" || s.view == "payment") && !submitDisabled s

/-- The set-status form can be submitted: `AdminView` is rendered and its
submit button is not disabled. -/
def setStatusOffered (s : Session) : Bool :=
  adminViewRendered s && !submitDisabled s

/-- The Refresh button of `DashboardView` can be clicked. -/
def refreshOffered (s : Session) : Bool :=
  viewsRendered s && s.view == "dashboard" && !s.isLoading

/-- The sidebar, with its Disconnect button, is rendered under `account`. -/
def sidebarRendered (s : Session) : Bool := truthyOpt s.account

/-- An item that sets the view to `v` can be clicked: the three sidebar
items, and the Admin Panel item rendered under `isOwner`. -/
def viewOffered (s : Session) (v : String) : Bool :=
  sidebarRendered s &&
    (v == "dashboard" || v == "payment" || v == "history" || (v == "admin" && s.isOwner))

/-! ### Events of the page -/

/-- What happens on the page: a click or submit (with the gateway that will
answer the handler it starts), an edit of a form field, the settling of the
`await` of the `i`-th suspended handler, or the completion of the `j`-th
detached history run. -/
inductive PageEvent where
  | clickConnect (gw : Gateway)
  | submitRegister (gw : Gateway)
  | submitPayment (gw : Gateway)
  | submitSetStatus (gw : Gateway)
  | clickRefresh (gw : Gateway)
  | clickDisconnect
  | clickView (v : String)
  | typeRegisterName (x : String)
  | typePaymentRecipient (x : String)
  | typePaymentAmount (x : String)
  | typeAdminAddress (x : String)
  | selectAdminStatus (n : Nat)
  | settle (i : Nat)
  | historyLands (j : Nat)

/-- The page after the event.  A click on something the page does not
offer, and an index that names nothing, change nothing. -/
def PageState.step (L : Lib) (p : PageState) : PageEvent → PageState
  | .clickConnect gw =>
    if connectOffered p.run.s then p.after p.inflight (startConnect gw p.run) else p
  | .submitRegister gw =>
    if registerOffered p.run.s then p.after p.inflight (startRegister gw p.run) else p
  | .submitPayment gw =>
    if paymentOffered p.run.s then p.after p.inflight (startPayment L gw p.run) else p
  | .submitSetStatus gw =>
    if setStatusOffered p.run.s then p.after p.inflight (startSetUserStatus L gw p.run)
    else p
  | .clickRefresh gw =>
    if refreshOffered p.run.s then p.after p.inflight (startRefresh gw p.run) else p
  | .clickDisconnect =>
    if sidebarRendered p.run.s then
      { p with run := ⟨(disconnectWallet p.run.s).s, p.run.log ++ (disconnectWallet p.run.s).log⟩ }
    else p
  | .clickView v =>
    if viewOffered p.run.s v then { p with run := setView v p.run } else p
  | .typeRegisterName x =>
    if registerViewRendered p.run.s then
      { p with run := { p.run with s := { p.run.s with registerName := x } } }
    else p
  | .typePaymentRecipient x =>
    if viewsRendered p.run.s && (p.run.s.view == "dashboard" || p.run.s.view == "payment") then
      { p with run := setPaymentRecipient x p.run }
    else p
  | .typePaymentAmount x =>
    if viewsRendered p.run.s && (p.run.s.view == "dashboard" || p.run.s.view == "payment") then
      { p with run := setPaymentAmount x p.run }
    else p
  | .typeAdminAddress x =>
    if adminViewRendered p.run.s then { p with run := setAdminAddress x p.run } else p
  | .selectAdminStatus n =>
    if adminViewRendered p.run.s then
      { p with run := { p.run with s := { p.run.s with adminStatus := n } } }
    else p
  | .settle i =>
    match p.inflight[i]? with
    | none => p
    | some h => p.after (p.inflight.eraseIdx i) (h.resume L p.run)
  | .historyLands j =>
    match p.detached[j]? with
    | none => p
    | some d => { p with run := d.land L p.run, detached := p.detached.eraseIdx j }

/-- The page after a list of events, in order. -/
def PageState.steps (L : Lib) (p : PageState) (es : List PageEvent) : PageState :=
  es.foldl (fun q e => q.step L e) p

/-- Page states that the page can be in, starting from its first render. -/
inductive PageReachable (L : Lib) : PageState → Prop where
  | initial : PageReachable L PageState.initial
  | step (p : PageState) (e : PageEvent) :
      PageReachable L p → PageReachable L (p.step L e)

/-- The gateway of the event, if it has one, knows `O` as the owner. -/
def PageEvent.ownerIs (O : String) : PageEvent → Prop
  | .clickConnect gw => gw.ownerIs O
  | .submitRegister gw => gw.ownerIs O
  | .submitPayment gw => gw.ownerIs O
  | .submitSetStatus gw => gw.ownerIs O
  | .clickRefresh gw => gw.ownerIs O
  | _ => True

/-! ### Sample runs of the page -/

/-- The wallet of bob on a network where `owner()` fails. -/
def bobOwnerlessGateway : Gateway :=
  { bobGateway with owner := .error ⟨none, none⟩ }

/-- The owner alice clicks Connect and, while `owner()` is awaited, clicks
Disconnect; her connection then runs to its end on the disconnected page.
Bob clicks Connect, his `owner()` call fails, and he opens the Admin Panel
item of the sidebar. -/
def raceTrace : List PageEvent :=
  [ .clickConnect sampleGateway, .settle 0, .settle 0,
    .clickDisconnect,
    .settle 0, .settle 0,
    .clickConnect bobOwnerlessGateway, .settle 0, .settle 0, .settle 0,
    .clickView "admin" ]

def pageAfterRace : PageState := PageState.initial.steps sampleLib raceTrace

/-- Alice connects, her history loads, she fills in the payment form and
submits it; the page is left waiting for `makePayment`. -/
def payingTrace : List PageEvent :=
  [ .clickConnect sampleGateway, .settle 0, .settle 0, .settle 0, .settle 0,
    .historyLands 0,
    .typePaymentRecipient bob, .typePaymentAmount "1",
    .submitPayment sampleGateway ]

def pagePaying : PageState := PageState.initial.steps sampleLib payingTrace

/-! ## Lemmas on the history loop -/

theorem pushIfMatch_eq (L : Lib) (a : String) (t : Transaction) (h : List HistoryEntry) :
    pushIfMatch L a t h =
      h ++ ([t].filter fun t => decide (L.toLowerCase t.from_ = a) ||
        decide (L.toLowerCase t.to_ = a)).map (historyEntry L a) := by
  unfold pushIfMatch
  by_cases h1 : L.toLowerCase t.from_ = a <;> by_cases h2 : L.toLowerCase t.to_ = a <;>
    simp [h1, h2]

theorem historyLoop_ok (L : Lib) (gw : Gateway) (a : String) (txs : List Transaction)
    (hget : ∀ i t, txs[i]? = some t → gw.getTransaction (i + 1) = .ok t) :
    ∀ i, i ≤ txs.length → ∀ h,
      (historyLoop L gw a i h).1 =
        .ok (h ++ (((txs.take i).reverse.filter fun t =>
          decide (L.toLowerCase t.from_ = a) || decide (L.toLowerCase t.to_ = a)).map
            (historyEntry L a))) := by
  intro i
  induction i with
  | zero => intro _ h; simp [historyLoop]
  | succ i ih =>
    intro hi h
    have hlt : i < txs.length := hi
    have hsome : txs[i]? = some txs[i] := List.getElem?_eq_getElem hlt
    have hg := hget i txs[i] hsome
    simp only [historyLoop, hg]
    have htake : txs.take (i + 1) = txs.take i ++ [txs[i]] := by
      rw [List.take_succ, hsome]; rfl
    rw [ih (Nat.le_of_lt hlt), pushIfMatch_eq, htake, List.reverse_append,
      List.reverse_singleton, List.singleton_append, List.filter_cons, List.filter_cons,
      List.filter_nil]
    split <;> simp

theorem historyLoop_error (L : Lib) (gw : Gateway) (a : String) :
    ∀ i h, (∃ j e, 1 ≤ j ∧ j ≤ i ∧ gw.getTransaction j = .error e) →
      ∃ e, (historyLoop L gw a i h).1 = .error e := by
  intro i
  induction i with
  | zero =>
    rintro h ⟨j, e, h1, h2, -⟩
    omega
  | succ i ih =>
    rintro h ⟨j, e, h1, h2, hj⟩
    cases hg : gw.getTransaction (i + 1) with
    | error e2 => exact ⟨e2, by simp [historyLoop, hg]⟩
    | ok tx =>
      have hne : j ≠ i + 1 := by
        intro hji
        rw [hji, hg] at hj
        cases hj
      have hji : j ≤ i := by omega
      obtain ⟨e3, he3⟩ := ih (pushIfMatch L a tx h) ⟨j, e, h1, hji, hj⟩
      exact ⟨e3, by simp [historyLoop, hg, he3]⟩

theorem participates_filter (L : Lib) (A : String) :
    (fun t : Transaction => decide (L.toLowerCase t.from_ = L.toLowerCase A) ||
      decide (L.toLowerCase t.to_ = L.toLowerCase A)) = participates L A := by
  funext t
  rfl

/-- With a gateway that serves the ledger, a run for a connected account
publishes the matching transactions, newest first. -/
theorem fetch_transactions (L : Lib) (gw : Gateway) (c : ContractHandle) (A : String)
    (r : Run) (txs : List Transaction) (hA : truthy A = true)
    (hled : gw.servesLedger txs) :
    (fetchTransactionHistory L gw (some c) (some A) r).s.transactions =
      ((txs.filter (participates L A)).reverse).map (historyEntry L (L.toLowerCase A)) := by
  have hloop := historyLoop_ok L gw (L.toLowerCase A) txs
    (fun i t h => (hled.2 i t h).1) txs.length (Nat.le_refl _) []
  rw [List.take_length, List.filter_reverse, participates_filter, List.nil_append] at hloop
  unfold fetchTransactionHistory
  simp only [hA, if_true, hled.1]
  rcases hpair : historyLoop L gw (L.toLowerCase A) txs.length [] with ⟨res, calls⟩
  rw [hpair] at hloop
  simp only at hloop
  subst hloop
  simp [setTransactions, emitAll]

theorem ledger_ids_increasing (gw : Gateway) (txs : List Transaction)
    (hled : gw.servesLedger txs) :
    List.Pairwise (fun a b => a < b) (txs.map Transaction.id) := by
  rw [List.pairwise_iff_getElem]
  intro i j hi hj hij
  simp only [List.length_map] at hi hj
  simp only [List.getElem_map]
  have h1 := (hled.2 i txs[i] (List.getElem?_eq_getElem hi)).2
  have h2 := (hled.2 j txs[j] (List.getElem?_eq_getElem hj)).2
  omega

theorem historyEntry_id (L : Lib) (a : String) :
    (fun e : HistoryEntry => e.id) ∘ historyEntry L a = Transaction.id := by
  funext t
  rfl

theorem published_ids_decreasing (L : Lib) (gw : Gateway) (A : String)
    (txs : List Transaction) (hled : gw.servesLedger txs) :
    List.Pairwise (fun a b => a > b)
      ((((txs.filter (participates L A)).reverse).map
        (historyEntry L (L.toLowerCase A))).map fun e => e.id) := by
  rw [List.map_map, historyEntry_id, List.map_reverse, List.pairwise_reverse]
  have hsub : List.Sublist ((txs.filter (participates L A)).map Transaction.id)
      (txs.map Transaction.id) := List.Sublist.map _ (List.filter_sublist _)
  exact (ledger_ids_increasing gw txs hled).sublist hsub

theorem ledger_id_inj (gw : Gateway) (txs : List Transaction) (hled : gw.servesLedger txs)
    (t u : Transaction) (ht : t ∈ txs) (hu : u ∈ txs) (hid : u.id = t.id) : u = t := by
  obtain ⟨i, hi, rfl⟩ := List.getElem_of_mem ht
  obtain ⟨j, hj, rfl⟩ := List.getElem_of_mem hu
  have h1 := (hled.2 i txs[i] (List.getElem?_eq_getElem hi)).2
  have h2 := (hled.2 j txs[j] (List.getElem?_eq_getElem hj)).2
  have hij : j = i := by omega
  subst hij
  rfl

theorem ledger_count_id (gw : Gateway) (txs : List Transaction) (hled : gw.servesLedger txs)
    (t : Transaction) (ht : t ∈ txs) :
    txs.countP (fun u => u.id == t.id) = 1 := by
  have hnd : (txs.map Transaction.id).Nodup :=
    (ledger_ids_increasing gw txs hled).imp (fun h => Nat.ne_of_lt h)
  have hmem : t.id ∈ txs.map Transaction.id := List.mem_map_of_mem _ ht
  have hc := List.count_eq_one_of_mem hnd hmem
  rw [List.count, List.countP_map] at hc
  rw [← hc]
  rfl

theorem published_count (L : Lib) (gw : Gateway) (A : String) (txs : List Transaction)
    (hled : gw.servesLedger txs) (t : Transaction) (ht : t ∈ txs) :
    (((txs.filter (participates L A)).reverse).map
      (historyEntry L (L.toLowerCase A))).countP (fun e => e.id == t.id) =
      if participates L A t = true then 1 else 0 := by
  rw [List.countP_map, List.countP_reverse, List.countP_filter]
  have hcongr : ∀ u ∈ txs,
      (((fun e : HistoryEntry => e.id == t.id) ∘ historyEntry L (L.toLowerCase A)) u &&
        participates L A u) = ((u.id == t.id) && participates L A t) := by
    intro u hu
    by_cases hid : u.id = t.id
    · rw [ledger_id_inj gw txs hled t u ht hu hid]
      simp [historyEntry]
    · have hb : (u.id == t.id) = false := beq_false_of_ne hid
      simp [historyEntry, hb]
  rw [List.countP_congr (by
    intro u hu
    rw [hcongr u hu])]
  by_cases hp : participates L A t = true
  · simp only [hp, Bool.and_true, if_true]
    exact ledger_count_id gw txs hled t ht
  · simp [hp]

/-- C1: for a contract and a connected (non-empty) account `A`, when the
gateway serves a ledger `txs` of `n` transactions with ids `1..n` (so the
counter and every `getTransaction` succeed), `fetchTransactionHistory`
publishes exactly the entries of the transactions in which `A` is `from` or
`to` in lower case, newest first: the list is the image of the matching
ledger transactions in reverse ledger order, an entry is in the list exactly
when it is the entry of a matching ledger transaction, the ids are strictly
descending, and each ledger transaction occurs once when it matches and not
at all otherwise. -/
theorem fetchTransactionHistory_exact (L : Lib) (gw : Gateway) (c : ContractHandle)
    (A : String) (r : Run) (txs : List Transaction) (hA : truthy A = true)
    (hled : gw.servesLedger txs) :
    publishedHistory L gw c A r =
        ((txs.filter (participates L A)).reverse).map (historyEntry L (L.toLowerCase A)) ∧
      (∀ e, e ∈ publishedHistory L gw c A r ↔
        ∃ t ∈ txs, participates L A t = true ∧ e = historyEntry L (L.toLowerCase A) t) ∧
      List.Pairwise (fun a b => a > b) ((publishedHistory L gw c A r).map fun e => e.id) ∧
      ∀ t ∈ txs, (publishedHistory L gw c A r).countP (fun e => e.id == t.id) =
        if participates L A t = true then 1 else 0 := by
  have heq := fetch_transactions L gw c A r txs hA hled
  unfold publishedHistory
  rw [heq]
  refine ⟨rfl, ?_, published_ids_decreasing L gw A txs hled, ?_⟩
  · intro e
    simp only [List.mem_map, List.mem_reverse, List.mem_filter]
    constructor
    · rintro ⟨t, ⟨ht, hp⟩, rfl⟩
      exact ⟨t, ht, hp, rfl⟩
    · rintro ⟨t, ht, hp, rfl⟩
      exact ⟨t, ⟨ht, hp⟩, rfl⟩
  · intro t ht
    exact published_count L gw A txs hled t ht

theorem ledgerGateway_serves (txs : List Transaction) (o : String)
    (users : Option String → Except JsError User)
    (hid : ∀ i t, txs[i]? = some t → t.id = i + 1) :
    (ledgerGateway txs o users).servesLedger txs := by
  refine ⟨rfl, ?_⟩
  intro i t h
  refine ⟨?_, hid i t h⟩
  simp [ledgerGateway, h]

theorem sampleLedger_ids : ∀ i t, sampleLedger[i]? = some t → t.id = i + 1 := by
  intro i t h
  match i with
  | 0 => simp [sampleLedger] at h; subst h; rfl
  | 1 => simp [sampleLedger] at h; subst h; rfl
  | 2 => simp [sampleLedger] at h; subst h; rfl
  | n + 3 => simp [sampleLedger] at h

theorem fetchTransactionHistory_exact_witness :
    truthy alice = true ∧ sampleGateway.servesLedger sampleLedger ∧
      ((publishedHistory sampleLib sampleGateway ⟨alice⟩ alice ⟨aliceSession, []⟩).map
        fun e => e.id) = [3, 1] := by
  have hs := ledgerGateway_serves sampleLedger alice activeUsers sampleLedger_ids
  have h := fetchTransactionHistory_exact sampleLib sampleGateway ⟨alice⟩ alice
    ⟨aliceSession, []⟩ sampleLedger (by decide) hs
  refine ⟨by decide, hs, ?_⟩
  rw [h.1]
  decide

/-- C3: when `transactionCounter` fails, or it answers `n` and some
`getTransaction j` with `1 ≤ j ≤ n` fails, a run of `fetchTransactionHistory`
for a contract and a connected account publishes nothing: the session is the
one before the call except for the notification, so `transactions` is
unchanged, and the notification is the error 'Failed to load history', which
is also the last step of the run. -/
theorem fetchTransactionHistory_failure (L : Lib) (gw : Gateway) (c : ContractHandle)
    (A : String) (r : Run) (hA : truthy A = true)
    (hfail : (∃ e, gw.transactionCounter = .error e) ∨
      ∃ n j e, gw.transactionCounter = .ok n ∧ 1 ≤ j ∧ j ≤ n ∧
        gw.getTransaction j = .error e) :
    (fetchTransactionHistory L gw (some c) (some A) r).s.transactions = r.s.transactions ∧
      (fetchTransactionHistory L gw (some c) (some A) r).s =
        { r.s with toast := some ⟨"Failed to load history", "error"⟩ } ∧
      (fetchTransactionHistory L gw (some c) (some A) r).log.getLast? =
        some (.showToast "Failed to load history" "error") := by
  unfold fetchTransactionHistory
  simp only [hA, if_true]
  rcases hfail with ⟨e, he⟩ | ⟨n, j, e, hn, h1, h2, hj⟩
  · simp [he, showToast, emit]
  · obtain ⟨e2, he2⟩ := historyLoop_error L gw (L.toLowerCase A) n [] ⟨j, e, h1, h2, hj⟩
    rcases hpair : historyLoop L gw (L.toLowerCase A) n [] with ⟨res, calls⟩
    rw [hpair] at he2
    simp only at he2
    subst he2
    simp [hn, hpair, showToast, emit, emitAll]
    exact List.getLast?_concat (Event.transactionCounter :: calls)

theorem fetchTransactionHistory_failure_witness :
    truthy alice = true ∧
      ((∃ e, brokenGateway.transactionCounter = .error e) ∨
        ∃ n j e, brokenGateway.transactionCounter = .ok n ∧ 1 ≤ j ∧ j ≤ n ∧
          brokenGateway.getTransaction j = .error e) ∧
      (fetchTransactionHistory sampleLib brokenGateway (some ⟨alice⟩) (some alice)
        ⟨aliceLoaded, []⟩).s.transactions = aliceLoaded.transactions := by
  have hf : (∃ e, brokenGateway.transactionCounter = .error e) ∨
      ∃ n j e, brokenGateway.transactionCounter = .ok n ∧ 1 ≤ j ∧ j ≤ n ∧
        brokenGateway.getTransaction j = .error e :=
    Or.inr ⟨3, 2, ⟨none, none⟩, rfl, by decide, by decide, rfl⟩
  exact ⟨by decide, hf,
    (fetchTransactionHistory_failure sampleLib brokenGateway ⟨alice⟩ alice
      ⟨aliceLoaded, []⟩ (by decide) hf).1⟩

theorem historyEntry_role (L : Lib) (a : String) (t : Transaction) :
    ((historyEntry L a t).role = "sent" ↔ L.toLowerCase t.from_ = a) ∧
      ((historyEntry L a t).role = "received" ↔ L.toLowerCase t.from_ ≠ a) ∧
      ((historyEntry L a t).role = "sent" → (historyEntry L a t).counterparty = t.to_) ∧
      ((historyEntry L a t).role = "received" →
        (historyEntry L a t).counterparty = t.from_) := by
  by_cases h : L.toLowerCase t.from_ = a <;> simp [historyEntry, h]

/-- C4: with a gateway serving the ledger `txs`, every entry published for
the viewing account `A` is the entry of a ledger transaction `t` (same id,
from and to) whose role is 'sent' exactly when `t.from` equals `A` in lower
case and 'received' exactly when it does not, and whose counterparty is
`t.to` when sent and `t.from` when received; a ledger transaction from `A`
to `A` (both in lower case) has exactly one entry, and that entry is 'sent'
with counterparty `t.to`, which is `A` in lower case. -/
theorem history_role_counterparty (L : Lib) (gw : Gateway) (c : ContractHandle)
    (A : String) (r : Run) (txs : List Transaction) (hA : truthy A = true)
    (hled : gw.servesLedger txs) :
    (∀ e ∈ publishedHistory L gw c A r, ∃ t ∈ txs,
        e.id = t.id ∧ e.from_ = t.from_ ∧ e.to_ = t.to_ ∧
        (e.role = "sent" ↔ L.toLowerCase t.from_ = L.toLowerCase A) ∧
        (e.role = "received" ↔ L.toLowerCase t.from_ ≠ L.toLowerCase A) ∧
        (e.role = "sent" → e.counterparty = t.to_) ∧
        (e.role = "received" → e.counterparty = t.from_)) ∧
      ∀ t ∈ txs, L.toLowerCase t.from_ = L.toLowerCase A →
        L.toLowerCase t.to_ = L.toLowerCase A →
        (publishedHistory L gw c A r).countP (fun e => e.id == t.id) = 1 ∧
        ∀ e ∈ publishedHistory L gw c A r, e.id = t.id →
          e.role = "sent" ∧ e.counterparty = t.to_ ∧
            L.toLowerCase e.counterparty = L.toLowerCase A := by
  have heq : publishedHistory L gw c A r = _ := fetch_transactions L gw c A r txs hA hled
  rw [heq]
  constructor
  · intro e he
    simp only [List.mem_map, List.mem_reverse, List.mem_filter] at he
    obtain ⟨t, ⟨ht, -⟩, rfl⟩ := he
    have hr := historyEntry_role L (L.toLowerCase A) t
    exact ⟨t, ht, rfl, rfl, rfl, hr.1, hr.2.1, hr.2.2.1, hr.2.2.2⟩
  · intro t ht hfrom hto
    have hp : participates L A t = true := by simp [participates, hfrom]
    constructor
    · rw [published_count L gw A txs hled t ht, if_pos hp]
    · intro e he hid
      simp only [List.mem_map, List.mem_reverse, List.mem_filter] at he
      obtain ⟨u, ⟨hu, -⟩, rfl⟩ := he
      have hut : u = t := ledger_id_inj gw txs hled t u ht hu hid
      subst hut
      have hr := historyEntry_role L (L.toLowerCase A) u
      have hsent := hr.1.2 hfrom
      refine ⟨hsent, hr.2.2.1 hsent, ?_⟩
      rw [hr.2.2.1 hsent, hto]

theorem selfLedger_ids : ∀ i t, selfLedger[i]? = some t → t.id = i + 1 := by
  intro i t h
  match i with
  | 0 => simp [selfLedger] at h; subst h; rfl
  | n + 1 => simp [selfLedger] at h

theorem history_role_counterparty_witness :
    truthy alice = true ∧ selfGateway.servesLedger selfLedger ∧
      ((publishedHistory sampleLib selfGateway ⟨alice⟩ alice ⟨aliceSession, []⟩).map
        fun e => (e.id, e.role, e.counterparty)) =
        [(1, "sent", "0xAAAAAAAAAAAAAAAAAAAAAAAAAAAAAAAAAAAAAAAA")] ∧
      ∀ e ∈ publishedHistory sampleLib selfGateway ⟨alice⟩ alice ⟨aliceSession, []⟩,
        ∃ t ∈ selfLedger, e.id = t.id ∧ e.from_ = t.from_ ∧ e.to_ = t.to_ ∧
        (e.role = "sent" ↔
          sampleLib.toLowerCase t.from_ = sampleLib.toLowerCase alice) ∧
        (e.role = "received" ↔
          sampleLib.toLowerCase t.from_ ≠ sampleLib.toLowerCase alice) ∧
        (e.role = "sent" → e.counterparty = t.to_) ∧
        (e.role = "received" → e.counterparty = t.from_) := by
  have hs := ledgerGateway_serves selfLedger alice activeUsers selfLedger_ids
  refine ⟨by decide, hs, ?_,
    (history_role_counterparty sampleLib selfGateway ⟨alice⟩ alice ⟨aliceSession, []⟩
      selfLedger (by decide) hs).1⟩
  have heq : publishedHistory sampleLib selfGateway ⟨alice⟩ alice ⟨aliceSession, []⟩ = _ :=
    fetch_transactions sampleLib selfGateway ⟨alice⟩ alice ⟨aliceSession, []⟩ selfLedger
      (by decide) hs
  rw [heq]
  decide

/-! ## Logs of the refresh functions -/

theorem historyLoop_calls (L : Lib) (gw : Gateway) (a : String) (p : Event → Bool)
    (hp : ∀ j, p (.getTransaction j) = false) :
    ∀ i h, (historyLoop L gw a i h).2.countP p = 0 := by
  intro i
  induction i with
  | zero => intro h; simp [historyLoop]
  | succ i ih =>
    intro h
    cases hg : gw.getTransaction (i + 1) with
    | error e => simp [historyLoop, hg, hp]
    | ok tx => simp [historyLoop, hg, hp, ih]

theorem fetch_log_count (L : Lib) (gw : Gateway) (c : ContractHandle) (A : String)
    (r : Run) (p : Event → Bool) (hA : truthy A = true)
    (hp : ∀ j, p (.getTransaction j) = false) (hq : ∀ m t, p (.showToast m t) = false) :
    (fetchTransactionHistory L gw (some c) (some A) r).log.countP p =
      r.log.countP p + if p .transactionCounter = true then 1 else 0 := by
  unfold fetchTransactionHistory
  simp only [hA, if_true]
  cases hc : gw.transactionCounter with
  | error e =>
    by_cases h : p .transactionCounter = true <;>
      simp [showToast, emit, List.countP_append, List.countP_cons, hq, h]
  | ok n =>
    have hl := historyLoop_calls L gw (L.toLowerCase A) p hp n []
    rcases hpair : historyLoop L gw (L.toLowerCase A) n [] with ⟨res, calls⟩
    rw [hpair] at hl
    simp only at hl
    cases res with
    | error e =>
      by_cases h : p .transactionCounter = true <;>
        simp [hpair, showToast, emit, emitAll, List.countP_append, List.countP_cons, hq, h, hl]
    | ok hist =>
      by_cases h : p .transactionCounter = true <;>
        simp [hpair, setTransactions, emitAll, List.countP_append, List.countP_cons, h, hl]

theorem refreshUser_log_count (L : Lib) (gw : Gateway) (c : ContractHandle) (A : String)
    (r : Run) (p : Event → Bool) (hA : truthy A = true) :
    (refreshUser L gw (some c) (some A) r).log.countP p =
      r.log.countP p + if p (.getUser (some A)) = true then 1 else 0 := by
  unfold refreshUser
  simp only [hA, if_true]
  cases hc : gw.getUser (some A) with
  | error e =>
    by_cases h : p (.getUser (some A)) = true <;>
      simp [emit, List.countP_append, List.countP_cons, h]
  | ok u =>
    by_cases h : p (.getUser (some A)) = true <;>
      simp [emit, setUserName, setUserBalance, List.countP_append, List.countP_cons, h]

theorem fetch_log_extends (L : Lib) (gw : Gateway) (oc : Option ContractHandle)
    (oa : Option String) (r : Run) :
    ∃ t, (fetchTransactionHistory L gw oc oa r).log = r.log ++ t := by
  unfold fetchTransactionHistory
  cases oc with
  | none => exact ⟨[], by simp⟩
  | some c =>
    cases oa with
    | none => exact ⟨[], by simp⟩
    | some A =>
      simp only
      split
      · cases gw.transactionCounter with
        | error e => exact ⟨_, by simp [showToast, emit, List.append_assoc]; rfl⟩
        | ok n =>
          simp only
          rcases historyLoop L gw (L.toLowerCase A) n [] with ⟨res, calls⟩
          cases res with
          | error e => exact ⟨_, by simp [showToast, emit, emitAll, List.append_assoc]; rfl⟩
          | ok hist => exact ⟨_, by simp [setTransactions, emitAll]; rfl⟩
      · exact ⟨[], by simp⟩

theorem refreshUser_log_extends (L : Lib) (gw : Gateway) (oc : Option ContractHandle)
    (oa : Option String) (r : Run) :
    ∃ t, (refreshUser L gw oc oa r).log = r.log ++ t := by
  unfold refreshUser
  cases oc with
  | none => exact ⟨[], by simp⟩
  | some c =>
    cases oa with
    | none => exact ⟨[], by simp⟩
    | some A =>
      simp only
      split
      · cases gw.getUser (some A) with
        | error e => exact ⟨_, by simp [emit]; rfl⟩
        | ok u => exact ⟨_, by simp [emit, setUserName, setUserBalance]; rfl⟩
      · exact ⟨[], by simp⟩

/-! ## Payments -/

theorem isGetUser_props :
    (∀ j, Event.isGetUser (.getTransaction j) = false) ∧
      (∀ m t, Event.isGetUser (.showToast m t) = false) :=
  ⟨fun _ => rfl, fun _ _ => rfl⟩

theorem isTransactionCounter_props :
    (∀ j, Event.isTransactionCounter (.getTransaction j) = false) ∧
      (∀ m t, Event.isTransactionCounter (.showToast m t) = false) :=
  ⟨fun _ => rfl, fun _ _ => rfl⟩

theorem paymentFailed_counts (L : Lib) (gw : Gateway) (s : Session) (c : ContractHandle)
    (A : String) (e : JsError) (r : Run) (hc : s.contract = some c)
    (hacc : s.account = some A) (hA : truthy A = true) :
    (paymentFailed L gw s e r).log.countP Event.isTransactionCounter =
        r.log.countP Event.isTransactionCounter + 1 ∧
      (paymentFailed L gw s e r).log.countP Event.isGetUser =
        r.log.countP Event.isGetUser := by
  have h1 := fetch_log_count L gw c A r Event.isTransactionCounter hA
    isTransactionCounter_props.1 isTransactionCounter_props.2
  have h2 := fetch_log_count L gw c A r Event.isGetUser hA
    isGetUser_props.1 isGetUser_props.2
  simp only [paymentFailed, hc, hacc, setIsLoading, showToast, emit, List.countP_append,
    List.countP_cons, List.countP_nil, h1, h2]
  simp [Event.isTransactionCounter, Event.isGetUser]

theorem paymentSuccess_counts (L : Lib) (gw : Gateway) (c : ContractHandle)
    (A : String) (r : Run) (hA : truthy A = true) :
    (fetchTransactionHistory L gw (some c) (some A)
        (setIsLoading false (setPaymentAmount "" (setPaymentRecipient ""
          (refreshUser L gw (some c) (some A) r))))).log.countP Event.isTransactionCounter =
        r.log.countP Event.isTransactionCounter + 1 ∧
      (fetchTransactionHistory L gw (some c) (some A)
        (setIsLoading false (setPaymentAmount "" (setPaymentRecipient ""
          (refreshUser L gw (some c) (some A) r))))).log.countP Event.isGetUser =
        r.log.countP Event.isGetUser + 1 := by
  have h3 := refreshUser_log_count L gw c A r Event.isTransactionCounter hA
  have h4 := refreshUser_log_count L gw c A r Event.isGetUser hA
  rw [fetch_log_count L gw c A _ Event.isTransactionCounter hA
    isTransactionCounter_props.1 isTransactionCounter_props.2,
    fetch_log_count L gw c A _ Event.isGetUser hA isGetUser_props.1 isGetUser_props.2]
  simp only [setIsLoading, setPaymentAmount, setPaymentRecipient, emit, List.countP_append,
    List.countP_cons, List.countP_nil, h3, h4]
  simp [Event.isTransactionCounter, Event.isGetUser]

theorem paymentFailed_log_extends (L : Lib) (gw : Gateway) (s : Session) (e : JsError)
    (r : Run) : ∃ t, (paymentFailed L gw s e r).log = r.log ++ t := by
  obtain ⟨t, ht⟩ := fetch_log_extends L gw s.contract s.account r
  refine ⟨t ++ [.showToast ("Payment failed: " ++ errorReason e) "error",
    .setIsLoading false], ?_⟩
  have h : (paymentFailed L gw s e r).log =
      (fetchTransactionHistory L gw s.contract s.account r).log ++
        [.showToast ("Payment failed: " ++ errorReason e) "error", .setIsLoading false] := by
    simp [paymentFailed, setIsLoading, showToast, emit]
  rw [h, ht, List.append_assoc]

theorem paymentSuccess_log_extends (L : Lib) (gw : Gateway) (oc : Option ContractHandle)
    (oa : Option String) (r : Run) :
    ∃ t, (fetchTransactionHistory L gw oc oa
      (setIsLoading false (setPaymentAmount "" (setPaymentRecipient ""
        (refreshUser L gw oc oa r))))).log = r.log ++ t := by
  obtain ⟨t1, ht1⟩ := refreshUser_log_extends L gw oc oa r
  obtain ⟨t2, ht2⟩ := fetch_log_extends L gw oc oa
    (setIsLoading false (setPaymentAmount "" (setPaymentRecipient ""
      (refreshUser L gw oc oa r))))
  refine ⟨t1 ++ [.setIsLoading false] ++ t2, ?_⟩
  have h : (setIsLoading false (setPaymentAmount "" (setPaymentRecipient ""
      (refreshUser L gw oc oa r)))).log =
      (refreshUser L gw oc oa r).log ++ [.setIsLoading false] := rfl
  rw [ht2, h, ht1]
  simp [List.append_assoc]

theorem handlePayment_valid_unfold (L : Lib) (gw : Gateway) (s : Session)
    (hv : paymentValid L s = true) :
    handlePayment L gw s =
      (match L.parseEther s.paymentAmount with
      | .error e => paymentFailed L gw s e (setIsLoading true ⟨s, []⟩)
      | .ok amountInWei =>
        match gw.makePayment s.paymentRecipient amountInWei with
        | .error e =>
          paymentFailed L gw s e
            (emit (.makePayment s.paymentRecipient amountInWei) (setIsLoading true ⟨s, []⟩))
        | .ok (.error e) =>
          paymentFailed L gw s e (emit .wait
            (emit (.makePayment s.paymentRecipient amountInWei) (setIsLoading true ⟨s, []⟩)))
        | .ok (.ok _) =>
          fetchTransactionHistory L gw s.contract s.account
            (setIsLoading false (setPaymentAmount "" (setPaymentRecipient ""
              (refreshUser L gw s.contract s.account
                (showToast "Payment successful!" "success" (emit .wait
                  (emit (.makePayment s.paymentRecipient amountInWei)
                    (setIsLoading true ⟨s, []⟩))))))))) := by
  simp only [paymentValid, Bool.and_eq_true, Bool.not_eq_true', Option.isSome_iff_exists] at hv
  obtain ⟨⟨⟨⟨⟨c, hc⟩, hr⟩, ha⟩, haddr⟩, hnum⟩ := hv
  unfold handlePayment
  simp only [hc, hr, ha, haddr, hnum, Bool.and_self, if_true, Bool.not_true]
  cases L.parseEther s.paymentAmount with
  | error e => simp
  | ok w =>
    simp only
    cases gw.makePayment s.paymentRecipient w with
    | error e => simp
    | ok tx =>
      cases tx with
      | error e => simp
      | ok u => simp

/-- C2 as stated fails: alice pays one ether to bob, the form passes the
local validation and the ledger rejects `makePayment`; the history is
fetched again once but `getUser` is never called, so the number of profile
refreshes is zero and not one. -/
theorem handlePayment_rejected_skips_profile_refresh :
    paymentValid sampleLib alicePaying = true ∧
      paymentSucceeds sampleLib rejectingGateway alicePaying = false ∧
      countCalls Event.isTransactionCounter
        (handlePayment sampleLib rejectingGateway alicePaying).log = 1 ∧
      countCalls Event.isGetUser
        (handlePayment sampleLib rejectingGateway alicePaying).log = 0 ∧
      ¬ (countCalls Event.isGetUser
          (handlePayment sampleLib rejectingGateway alicePaying).log = 1 ∧
        countCalls Event.isTransactionCounter
          (handlePayment sampleLib rejectingGateway alicePaying).log = 1) := by
  decide

/-- C2 amended: for a session with a contract and a connected account whose
payment form passes the local validation, `handlePayment` attempts exactly
one history refresh (one `transactionCounter` call) whether the payment
succeeds or fails, and exactly one profile refresh (`getUser`) when the
amount converts, `makePayment` is accepted and confirmed, and none when
they fail; when the amount converts, nothing but the busy-flag write
precedes the `makePayment` call, so the refreshes come after it. -/
theorem handlePayment_refreshes (L : Lib) (gw : Gateway) (s : Session)
    (c : ContractHandle) (A : String) (hc : s.contract = some c)
    (hacc : s.account = some A) (hA : truthy A = true)
    (hv : paymentValid L s = true) :
    countCalls Event.isTransactionCounter (handlePayment L gw s).log = 1 ∧
      countCalls Event.isGetUser (handlePayment L gw s).log =
        (if paymentSucceeds L gw s = true then 1 else 0) ∧
      ∀ w, L.parseEther s.paymentAmount = .ok w →
        (handlePayment L gw s).log.takeWhile (fun e => !e.isMakePayment) =
          [.setIsLoading true] := by
  rw [handlePayment_valid_unfold L gw s hv]
  unfold countCalls paymentSucceeds
  cases hpe : L.parseEther s.paymentAmount with
  | error e =>
    have h := paymentFailed_counts L gw s c A e (setIsLoading true ⟨s, []⟩) hc hacc hA
    refine ⟨?_, ?_, ?_⟩
    · simp only [h.1]; simp [setIsLoading, emit, Event.isTransactionCounter]
    · simp only [h.2]; simp [setIsLoading, emit, Event.isGetUser]
    · intro w hw; cases hw
  | ok w =>
    simp only []
    have hcases : (∃ e, gw.makePayment s.paymentRecipient w = .error e) ∨
        (∃ e, gw.makePayment s.paymentRecipient w = .ok (.error e)) ∨
        ∃ u, gw.makePayment s.paymentRecipient w = .ok (.ok u) := by
      cases gw.makePayment s.paymentRecipient w with
      | error e => exact Or.inl ⟨e, rfl⟩
      | ok tx =>
        cases tx with
        | error e => exact Or.inr (Or.inl ⟨e, rfl⟩)
        | ok u => exact Or.inr (Or.inr ⟨u, rfl⟩)
    rcases hcases with ⟨e, hmp⟩ | ⟨e, hmp⟩ | ⟨u, hmp⟩
    · simp only [hmp]
      have h := paymentFailed_counts L gw s c A e
        (emit (.makePayment s.paymentRecipient w) (setIsLoading true ⟨s, []⟩)) hc hacc hA
      refine ⟨?_, ?_, ?_⟩
      · simp only [h.1]; simp [setIsLoading, emit, Event.isTransactionCounter]
      · simp only [h.2]; simp [setIsLoading, emit, Event.isGetUser]
      · intro w2 _
        obtain ⟨t, ht⟩ := paymentFailed_log_extends L gw s e
          (emit (.makePayment s.paymentRecipient w) (setIsLoading true ⟨s, []⟩))
        rw [ht]
        simp [setIsLoading, emit, List.takeWhile_cons, Event.isMakePayment]
    · simp only [hmp]
      have h := paymentFailed_counts L gw s c A e
        (emit .wait (emit (.makePayment s.paymentRecipient w)
          (setIsLoading true ⟨s, []⟩))) hc hacc hA
      refine ⟨?_, ?_, ?_⟩
      · simp only [h.1]; simp [setIsLoading, emit, Event.isTransactionCounter]
      · simp only [h.2]; simp [setIsLoading, emit, Event.isGetUser]
      · intro w2 _
        obtain ⟨t, ht⟩ := paymentFailed_log_extends L gw s e
          (emit .wait (emit (.makePayment s.paymentRecipient w)
            (setIsLoading true ⟨s, []⟩)))
        rw [ht]
        simp [setIsLoading, emit, List.takeWhile_cons, Event.isMakePayment]
    · simp only [hmp]
      have h := paymentSuccess_counts L gw c A
        (showToast "Payment successful!" "success" (emit .wait
          (emit (.makePayment s.paymentRecipient w) (setIsLoading true ⟨s, []⟩)))) hA
      simp only [hc, hacc]
      refine ⟨?_, ?_, ?_⟩
      · simp only [h.1]; simp [setIsLoading, showToast, emit, Event.isTransactionCounter]
      · simp only [h.2]; simp [setIsLoading, showToast, emit, Event.isGetUser]
      · intro w2 _
        obtain ⟨t, ht⟩ := paymentSuccess_log_extends L gw (some c) (some A)
          (showToast "Payment successful!" "success" (emit .wait
            (emit (.makePayment s.paymentRecipient w) (setIsLoading true ⟨s, []⟩))))
        rw [ht]
        simp [setIsLoading, showToast, emit, List.takeWhile_cons, Event.isMakePayment]

theorem handlePayment_refreshes_witness :
    alicePaying.contract = some ⟨alice⟩ ∧ alicePaying.account = some alice ∧
      truthy alice = true ∧ paymentValid sampleLib alicePaying = true ∧
      countCalls Event.isTransactionCounter
        (handlePayment sampleLib sampleGateway alicePaying).log = 1 ∧
      countCalls Event.isGetUser (handlePayment sampleLib sampleGateway alicePaying).log =
        (if paymentSucceeds sampleLib sampleGateway alicePaying = true then 1 else 0) :=
  ⟨rfl, rfl, by decide, by decide,
    (handlePayment_refreshes sampleLib sampleGateway alicePaying ⟨alice⟩ alice rfl rfl
      (by decide) (by decide)).1,
    (handlePayment_refreshes sampleLib sampleGateway alicePaying ⟨alice⟩ alice rfl rfl
      (by decide) (by decide)).2.1⟩

theorem handlePayment_invalid_unfold (L : Lib) (gw : Gateway) (s : Session)
    (hv : paymentValid L s = false) :
    handlePayment L gw s = ⟨s, []⟩ ∨
      handlePayment L gw s = showToast "Invalid recipient address" "error" ⟨s, []⟩ ∨
      handlePayment L gw s = showToast "Invalid amount" "error" ⟨s, []⟩ := by
  unfold handlePayment
  unfold paymentValid at hv
  cases hc : s.contract with
  | none => exact Or.inl rfl
  | some c =>
    simp only
    by_cases hf : (truthy s.paymentRecipient && truthy s.paymentAmount) = true
    · simp only [hf, if_true]
      by_cases haddr : L.isAddress s.paymentRecipient = true
      · simp only [haddr, Bool.not_true]
        by_cases hnum : ((L.Number s.paymentAmount).isNaN ||
            (L.Number s.paymentAmount).leZero) = true
        · simp only [hnum, if_true]
          exact Or.inr (Or.inr rfl)
        · exfalso
          simp only [Bool.and_eq_true] at hf
          simp [hc, hf.1, hf.2, haddr, hnum] at hv
      · simp only [Bool.not_eq_true] at haddr
        simp [haddr]
    · simp only [hf]
      exact Or.inl rfl

theorem shortCircuited_refl (s : Session) : shortCircuited s ⟨s, []⟩ := by
  simp [shortCircuited]

theorem shortCircuited_toast (s : Session) (m t : String) :
    shortCircuited s (showToast m t ⟨s, []⟩) := by
  simp [shortCircuited, showToast, emit, Event.isGatewayCall, Event.isSetIsLoading]

/-- C5: failing the local validation stops each mutating handler before any
effect: `handleRegister` with an empty name, `handlePayment` with a
recipient that is not an address or an amount that is NaN or not above zero,
and `handleSetUserStatus` with a user address that is not an address each
leave a log without any gateway call (read or mutating) and without any
busy-flag write, and leave `isLoading`, `account`, `userName`, `userBalance`
and `transactions` as they were. -/
theorem validation_short_circuits (L : Lib) (gw : Gateway) (s : Session) :
    (s.registerName = "" → shortCircuited s (handleRegister L gw s)) ∧
      ((L.isAddress s.paymentRecipient = false ∨ (L.Number s.paymentAmount).isNaN = true ∨
          (L.Number s.paymentAmount).leZero = true) →
        shortCircuited s (handlePayment L gw s)) ∧
      (L.isAddress s.adminAddress = false →
        shortCircuited s (handleSetUserStatus L gw s)) := by
  refine ⟨?_, ?_, ?_⟩
  · intro hn
    have h : handleRegister L gw s = ⟨s, []⟩ := by
      unfold handleRegister
      cases s.contract <;> simp [hn, truthy]
    rw [h]
    exact shortCircuited_refl s
  · intro hbad
    have hv : paymentValid L s = false := by
      unfold paymentValid
      rcases hbad with h | h | h <;> simp [h]
    rcases handlePayment_invalid_unfold L gw s hv with h | h | h <;> rw [h]
    · exact shortCircuited_refl s
    · exact shortCircuited_toast s _ _
    · exact shortCircuited_toast s _ _
  · intro hbad
    have h : handleSetUserStatus L gw s = ⟨s, []⟩ ∨
        handleSetUserStatus L gw s = showToast "Invalid user address" "error" ⟨s, []⟩ := by
      unfold handleSetUserStatus
      cases s.contract with
      | none => exact Or.inl rfl
      | some c =>
        by_cases ht : truthy s.adminAddress = true
        · simp [ht, hbad]
        · simp [ht]
    rcases h with h | h <;> rw [h]
    · exact shortCircuited_refl s
    · exact shortCircuited_toast s _ _

theorem validation_short_circuits_witness :
    aliceInvalidForms.registerName = "" ∧
      sampleLib.isAddress aliceInvalidForms.paymentRecipient = false ∧
      sampleLib.isAddress aliceInvalidForms.adminAddress = false ∧
      shortCircuited aliceInvalidForms
        (handleRegister sampleLib sampleGateway aliceInvalidForms) ∧
      shortCircuited aliceInvalidForms
        (handlePayment sampleLib sampleGateway aliceInvalidForms) ∧
      shortCircuited aliceInvalidForms
        (handleSetUserStatus sampleLib sampleGateway aliceInvalidForms) :=
  ⟨rfl, by decide, by decide,
    (validation_short_circuits sampleLib sampleGateway aliceInvalidForms).1 rfl,
    (validation_short_circuits sampleLib sampleGateway aliceInvalidForms).2.1
      (Or.inl (by decide)),
    (validation_short_circuits sampleLib sampleGateway aliceInvalidForms).2.2 (by decide)⟩

theorem fetch_log_count_none (L : Lib) (gw : Gateway) (oc : Option ContractHandle)
    (oa : Option String) (r : Run) (p : Event → Bool)
    (hp : ∀ j, p (.getTransaction j) = false) (hq : ∀ m t, p (.showToast m t) = false)
    (hc : p .transactionCounter = false) :
    (fetchTransactionHistory L gw oc oa r).log.countP p = r.log.countP p := by
  cases oc with
  | none => simp [fetchTransactionHistory]
  | some c =>
    cases oa with
    | none => simp [fetchTransactionHistory]
    | some A =>
      by_cases hA : truthy A = true
      · rw [fetch_log_count L gw c A r p hA hp hq]
        simp [hc]
      · simp [fetchTransactionHistory, hA]

theorem refreshUser_log_count_none (L : Lib) (gw : Gateway) (oc : Option ContractHandle)
    (oa : Option String) (r : Run) (p : Event → Bool)
    (hp : ∀ a, p (.getUser a) = false) :
    (refreshUser L gw oc oa r).log.countP p = r.log.countP p := by
  cases oc with
  | none => simp [refreshUser]
  | some c =>
    cases oa with
    | none => simp [refreshUser]
    | some A =>
      by_cases hA : truthy A = true
      · rw [refreshUser_log_count L gw c A r p hA]
        simp [hp]
      · simp [refreshUser, hA]

theorem paymentFailed_makePayment_count (L : Lib) (gw : Gateway) (s : Session)
    (e : JsError) (r : Run) :
    (paymentFailed L gw s e r).log.countP Event.isMakePayment =
      r.log.countP Event.isMakePayment := by
  have h := fetch_log_count_none L gw s.contract s.account r Event.isMakePayment
    (fun _ => rfl) (fun _ _ => rfl) rfl
  simp only [paymentFailed, setIsLoading, showToast, emit, List.countP_append,
    List.countP_cons, List.countP_nil, h]
  simp [Event.isMakePayment]

/-- C6 as stated fails: alice's account is Suspended on the ledger (`getUser`
answers status 2) and her form holds a valid recipient and the amount 1;
`handlePayment` passes its validation and calls `makePayment` for bob with
one ether in wei. -/
theorem handlePayment_suspended_submits :
    suspendedGateway.getUser alicePaying.account =
        .ok { name := "Alice", balance := 5 * 10 ^ 18, status := 2 } ∧
      Event.makePayment bob (10 ^ 18) ∈
        (handlePayment sampleLib suspendedGateway alicePaying).log ∧
      countCalls Event.isMakePayment
        (handlePayment sampleLib suspendedGateway alicePaying).log = 1 :=
  ⟨rfl, by decide, by decide⟩

/-- C6 amended: the validation of `handlePayment` never consults the status
of the account.  For every session and every gateway, whatever `getUser`
would answer (Suspended included), `handlePayment` issues exactly one
`makePayment` call when a contract is set, both fields are filled, the
recipient is an address and the amount is a number above zero that converts
to wei, and none otherwise; rejecting the payment of a suspended account is
left to the ledger. -/
theorem handlePayment_submits_iff_form_valid (L : Lib) (gw : Gateway) (s : Session) :
    countCalls Event.isMakePayment (handlePayment L gw s).log =
      if paymentSubmits L s = true then 1 else 0 := by
  unfold countCalls paymentSubmits
  cases hv : paymentValid L s with
  | false =>
    rcases handlePayment_invalid_unfold L gw s hv with h | h | h <;> rw [h] <;>
      simp [showToast, emit, Event.isMakePayment]
  | true =>
    rw [handlePayment_valid_unfold L gw s hv]
    cases hpe : L.parseEther s.paymentAmount with
    | error e =>
      simp only [paymentFailed_makePayment_count]
      simp [setIsLoading, emit, Event.isMakePayment]
    | ok w =>
      simp only []
      have hcases : (∃ e, gw.makePayment s.paymentRecipient w = .error e) ∨
          (∃ e, gw.makePayment s.paymentRecipient w = .ok (.error e)) ∨
          ∃ u, gw.makePayment s.paymentRecipient w = .ok (.ok u) := by
        cases gw.makePayment s.paymentRecipient w with
        | error e => exact Or.inl ⟨e, rfl⟩
        | ok tx =>
          cases tx with
          | error e => exact Or.inr (Or.inl ⟨e, rfl⟩)
          | ok u => exact Or.inr (Or.inr ⟨u, rfl⟩)
      rcases hcases with ⟨e, hmp⟩ | ⟨e, hmp⟩ | ⟨u, hmp⟩
      · simp only [hmp, paymentFailed_makePayment_count]
        simp [setIsLoading, emit, Event.isMakePayment]
      · simp only [hmp, paymentFailed_makePayment_count]
        simp [setIsLoading, emit, Event.isMakePayment]
      · simp only [hmp]
        rw [fetch_log_count_none L gw _ _ _ Event.isMakePayment (fun _ => rfl)
          (fun _ _ => rfl) rfl]
        have h := refreshUser_log_count_none L gw s.contract s.account
          (showToast "Payment successful!" "success" (emit .wait
            (emit (.makePayment s.paymentRecipient w) (setIsLoading true ⟨s, []⟩))))
          Event.isMakePayment (fun _ => rfl)
        simp only [setIsLoading, setPaymentAmount, setPaymentRecipient, emit,
          List.countP_append, List.countP_cons, List.countP_nil] at h ⊢
        rw [h]
        simp [showToast, emit, Event.isMakePayment]

/-- C8: from every session, `disconnectWallet` leaves `account` and
`contract` null, `isOwner` false, `userName` empty, `userBalance` '0.0',
`transactions` empty and `view` 'dashboard', which are the values these
fields have in the initial state. -/
theorem disconnectWallet_clears (s : Session) :
    (disconnectWallet s).s.account = none ∧ (disconnectWallet s).s.contract = none ∧
      (disconnectWallet s).s.isOwner = false ∧ (disconnectWallet s).s.userName = "" ∧
      (disconnectWallet s).s.userBalance = "0.0" ∧
      (disconnectWallet s).s.transactions = [] ∧
      (disconnectWallet s).s.view = "dashboard" ∧
      (disconnectWallet s).s.account = Session.initial.account ∧
      (disconnectWallet s).s.contract = Session.initial.contract ∧
      (disconnectWallet s).s.isOwner = Session.initial.isOwner ∧
      (disconnectWallet s).s.userName = Session.initial.userName ∧
      (disconnectWallet s).s.userBalance = Session.initial.userBalance ∧
      (disconnectWallet s).s.transactions = Session.initial.transactions ∧
      (disconnectWallet s).s.view = Session.initial.view :=
  ⟨rfl, rfl, rfl, rfl, rfl, rfl, rfl, rfl, rfl, rfl, rfl, rfl, rfl, rfl⟩

/-- C9: when `getUser` fails in `refreshUser`, run for a contract and a
connected account, the session is left as it was; in particular `userName`
and `userBalance` keep their values. -/
theorem refreshUser_failure_keeps_profile (L : Lib) (gw : Gateway) (c : ContractHandle)
    (A : String) (r : Run) (e : JsError) (hfail : gw.getUser (some A) = .error e) :
    (refreshUser L gw (some c) (some A) r).s = r.s ∧
      (refreshUser L gw (some c) (some A) r).s.userName = r.s.userName ∧
      (refreshUser L gw (some c) (some A) r).s.userBalance = r.s.userBalance := by
  unfold refreshUser
  by_cases hA : truthy A = true <;> simp [hA, hfail, emit]

theorem refreshUser_failure_keeps_profile_witness :
    offlineUsersGateway.getUser (some alice) = .error ⟨none, none⟩ ∧
      (refreshUser sampleLib offlineUsersGateway (some ⟨alice⟩) (some alice)
        ⟨aliceSession, []⟩).s.userName = "Alice" ∧
      (refreshUser sampleLib offlineUsersGateway (some ⟨alice⟩) (some alice)
        ⟨aliceSession, []⟩).s.userBalance = "5.0" :=
  ⟨rfl,
    (refreshUser_failure_keeps_profile sampleLib offlineUsersGateway ⟨alice⟩ alice
      ⟨aliceSession, []⟩ ⟨none, none⟩ rfl).2.1,
    (refreshUser_failure_keeps_profile sampleLib offlineUsersGateway ⟨alice⟩ alice
      ⟨aliceSession, []⟩ ⟨none, none⟩ rfl).2.2⟩

/-- C10 on the code: `getUser` answers the Suspended user Alice (status 2)
holding five ether; `refreshUser` caches the name 'Alice' and the balance
'5.0' instead of the blank name and '0.0'. -/
theorem refreshUser_ignores_status :
    suspendedGateway.getUser (some alice) =
        .ok { name := "Alice", balance := 5 * 10 ^ 18, status := 2 } ∧
      (refreshUser sampleLib suspendedGateway (some ⟨alice⟩) (some alice)
        ⟨aliceBlank, []⟩).s.userName = "Alice" ∧
      (refreshUser sampleLib suspendedGateway (some ⟨alice⟩) (some alice)
        ⟨aliceBlank, []⟩).s.userBalance = "5.0" :=
  ⟨rfl, by decide, by decide⟩

/-! ## The owner flag -/

theorem fetch_identity (L : Lib) (gw : Gateway) (oc : Option ContractHandle)
    (oa : Option String) (r : Run) :
    (fetchTransactionHistory L gw oc oa r).s.account = r.s.account ∧
      (fetchTransactionHistory L gw oc oa r).s.isOwner = r.s.isOwner := by
  unfold fetchTransactionHistory
  cases oc with
  | none => simp
  | some c =>
    cases oa with
    | none => simp
    | some A =>
      simp only
      split
      · cases gw.transactionCounter with
        | error e => simp [showToast, emit]
        | ok n =>
          simp only
          rcases historyLoop L gw (L.toLowerCase A) n [] with ⟨res, calls⟩
          cases res with
          | error e => simp [showToast, emit, emitAll]
          | ok hist => simp [setTransactions, emitAll]
      · simp

theorem refreshUser_identity (L : Lib) (gw : Gateway) (oc : Option ContractHandle)
    (oa : Option String) (r : Run) :
    (refreshUser L gw oc oa r).s.account = r.s.account ∧
      (refreshUser L gw oc oa r).s.isOwner = r.s.isOwner := by
  unfold refreshUser
  cases oc with
  | none => simp
  | some c =>
    cases oa with
    | none => simp
    | some A =>
      simp only
      split
      · cases gw.getUser (some A) with
        | error e => simp [emit]
        | ok u => simp [emit, setUserName, setUserBalance]
      · simp

theorem handleRegister_identity (L : Lib) (gw : Gateway) (s : Session) :
    (handleRegister L gw s).s.account = s.account ∧
      (handleRegister L gw s).s.isOwner = s.isOwner := by
  unfold handleRegister
  cases s.contract with
  | none => simp
  | some c =>
    simp only
    split
    · cases gw.registerUser s.registerName with
      | error e => simp [registerFailed, setIsLoading, showToast, emit]
      | ok tx =>
        cases tx with
        | error e => simp [registerFailed, setIsLoading, showToast, emit]
        | ok u =>
          simp only
          cases gw.getUser s.account with
          | error e => simp [registerFailed, setIsLoading, showToast, emit]
          | ok user =>
            simp only
            split
            · simp [fetch_identity, setIsLoading, setUserBalance, setUserName, showToast, emit]
            · simp [setIsLoading, showToast, emit]
    · simp

theorem paymentFailed_identity (L : Lib) (gw : Gateway) (s : Session) (e : JsError)
    (r : Run) :
    (paymentFailed L gw s e r).s.account = r.s.account ∧
      (paymentFailed L gw s e r).s.isOwner = r.s.isOwner := by
  simp [paymentFailed, setIsLoading, showToast, emit, fetch_identity]

theorem handlePayment_identity (L : Lib) (gw : Gateway) (s : Session) :
    (handlePayment L gw s).s.account = s.account ∧
      (handlePayment L gw s).s.isOwner = s.isOwner := by
  cases hv : paymentValid L s with
  | false =>
    rcases handlePayment_invalid_unfold L gw s hv with h | h | h <;> rw [h] <;>
      simp [showToast, emit]
  | true =>
    rw [handlePayment_valid_unfold L gw s hv]
    cases L.parseEther s.paymentAmount with
    | error e => simp [paymentFailed_identity, setIsLoading, emit]
    | ok w =>
      simp only
      cases gw.makePayment s.paymentRecipient w with
      | error e => simp [paymentFailed_identity, setIsLoading, emit]
      | ok tx =>
        cases tx with
        | error e => simp [paymentFailed_identity, setIsLoading, emit]
        | ok u =>
          simp only [fetch_identity]
          simp [setIsLoading, setPaymentAmount, setPaymentRecipient, emit, refreshUser_identity,
            showToast]

theorem handleSetUserStatus_identity (L : Lib) (gw : Gateway) (s : Session) :
    (handleSetUserStatus L gw s).s.account = s.account ∧
      (handleSetUserStatus L gw s).s.isOwner = s.isOwner := by
  unfold handleSetUserStatus
  cases s.contract with
  | none => simp
  | some c =>
    simp only
    split
    · split
      · simp [showToast, emit]
      · cases gw.setUserStatus s.adminAddress s.adminStatus with
        | error e => simp [setUserStatusFailed, setIsLoading, showToast, emit]
        | ok tx =>
          cases tx with
          | error e => simp [setUserStatusFailed, setIsLoading, showToast, emit]
          | ok u => simp [setIsLoading, setAdminAddress, showToast, emit]
    · simp

theorem refreshAll_identity (L : Lib) (gw : Gateway) (s : Session) :
    (refreshAll L gw s).s.account = s.account ∧
      (refreshAll L gw s).s.isOwner = s.isOwner := by
  unfold refreshAll
  cases s.contract with
  | none => simp
  | some c =>
    simp only
    split
    · simp [setIsLoading, showToast, emit, fetch_identity, refreshUser_identity]
    · simp

/-! ## Frames of the refresh functions -/

theorem fetch_frame (L : Lib) (gw : Gateway) (oc : Option ContractHandle)
    (oa : Option String) (r : Run) :
    (fetchTransactionHistory L gw oc oa r).s =
      { r.s with
        transactions := (fetchTransactionHistory L gw oc oa r).s.transactions,
        toast := (fetchTransactionHistory L gw oc oa r).s.toast } := by
  unfold fetchTransactionHistory
  cases oc with
  | none => simp
  | some c =>
    cases oa with
    | none => simp
    | some A =>
      simp only
      split
      · cases gw.transactionCounter with
        | error e => simp [showToast, emit]
        | ok n =>
          simp only
          rcases historyLoop L gw (L.toLowerCase A) n [] with ⟨res, calls⟩
          cases res with
          | error e => simp [showToast, emit, emitAll]
          | ok hist => simp [setTransactions, emitAll]
      · simp

theorem refreshUser_frame (L : Lib) (gw : Gateway) (oc : Option ContractHandle)
    (oa : Option String) (r : Run) :
    (refreshUser L gw oc oa r).s =
      { r.s with
        userName := (refreshUser L gw oc oa r).s.userName,
        userBalance := (refreshUser L gw oc oa r).s.userBalance } := by
  unfold refreshUser
  cases oc with
  | none => simp
  | some c =>
    cases oa with
    | none => simp
    | some A =>
      simp only
      split
      · cases gw.getUser (some A) with
        | error e => simp [emit]
        | ok u => simp [emit, setUserName, setUserBalance]
      · simp

theorem fetch_isLoading (L : Lib) (gw : Gateway) (oc : Option ContractHandle)
    (oa : Option String) (r : Run) :
    (fetchTransactionHistory L gw oc oa r).s.isLoading = r.s.isLoading := by
  rw [fetch_frame]

theorem fetch_profile (L : Lib) (gw : Gateway) (oc : Option ContractHandle)
    (oa : Option String) (r : Run) :
    (fetchTransactionHistory L gw oc oa r).s.userName = r.s.userName ∧
      (fetchTransactionHistory L gw oc oa r).s.userBalance = r.s.userBalance := by
  rw [fetch_frame]
  exact ⟨rfl, rfl⟩

theorem refreshUser_isLoading (L : Lib) (gw : Gateway) (oc : Option ContractHandle)
    (oa : Option String) (r : Run) :
    (refreshUser L gw oc oa r).s.isLoading = r.s.isLoading := by
  rw [refreshUser_frame]

theorem refreshUser_transactions (L : Lib) (gw : Gateway) (oc : Option ContractHandle)
    (oa : Option String) (r : Run) :
    (refreshUser L gw oc oa r).s.transactions = r.s.transactions := by
  rw [refreshUser_frame]

/-! ## Connecting and registering -/

/-- C11: when `connectWallet` succeeds from the no-account baseline (a
provider is present, the accounts, the signer, the owner and the profile are
all answered, `accounts[0]` is a non-empty account) and the profile's status
is not 1, the session has that account, `userName` is empty and
`userBalance` is '0.0' whatever name and balance the ledger answered, the
log holds exactly the five remote calls of the connection with no
`transactionCounter` or `getTransaction` call, `transactions` is empty, and
the main content renders the register prompt. -/
theorem connectWallet_inactive_profile (L : Lib) (gw : Gateway) (s : Session)
    (accounts : List String) (signer ownerAddress acct : String) (user : User)
    (hbase : isBaseline s) (heth : gw.hasEthereum = true)
    (hreq : gw.requestAccounts = .ok accounts) (hsig : gw.getSigner = .ok signer)
    (hhead : accounts.head? = some acct) (htr : truthy acct = true)
    (hown : gw.owner = .ok ownerAddress) (huser : gw.getUser (some acct) = .ok user)
    (hst : user.status ≠ 1) :
    (connectWallet L gw s).s.account = some acct ∧
      (connectWallet L gw s).s.userName = "" ∧
      (connectWallet L gw s).s.userBalance = "0.0" ∧
      (connectWallet L gw s).log =
        [.setIsLoading true, .requestAccounts, .getSigner, .owner, .getUser (some acct),
          .showToast "Wallet connected" "success", .setIsLoading false] ∧
      countCalls Event.isTransactionCounter (connectWallet L gw s).log = 0 ∧
      (connectWallet L gw s).s.transactions = [] ∧
      registerViewRendered (connectWallet L gw s).s = true := by
  obtain ⟨-, -, -, -, -, htx, -⟩ := hbase
  have h : connectWallet L gw s =
      setIsLoading false (showToast "Wallet connected" "success"
        (setUserBalance "0.0" (setUserName ""
          (emit (.getUser (some acct))
            (setIsLoading true ⟨s, []⟩ |> emit .requestAccounts |> emit .getSigner
              |> setAccount (some acct) |> setContract (some ⟨signer⟩) |> emit .owner
              |> setIsOwner (L.toLowerCase acct == L.toLowerCase ownerAddress)))))) := by
    unfold connectWallet
    simp [heth, hreq, hsig, hhead, hown, huser, hst]
  rw [h]
  refine ⟨rfl, rfl, rfl, rfl, ?_, htx, ?_⟩
  · simp [countCalls, setIsLoading, showToast, setUserBalance, setUserName, emit, setAccount,
      setContract, setIsOwner, Event.isTransactionCounter]
  · have hne : acct ≠ "" := by simpa [truthy] using htr
    simp [registerViewRendered, truthyOpt, hne, truthy, setIsLoading, showToast,
      setUserBalance, setUserName, emit, setAccount, setContract, setIsOwner]

theorem connectWallet_inactive_profile_witness :
    isBaseline Session.initial ∧ truthy alice = true ∧
      (connectWallet sampleLib unregisteredGateway Session.initial).s.userName = "" ∧
      (connectWallet sampleLib unregisteredGateway Session.initial).s.userBalance = "0.0" ∧
      registerViewRendered
        (connectWallet sampleLib unregisteredGateway Session.initial).s = true := by
  have h := connectWallet_inactive_profile sampleLib unregisteredGateway Session.initial
    [alice] alice carol alice { name := "Ghost", balance := 7 * 10 ^ 18, status := 0 }
    ⟨rfl, rfl, rfl, rfl, rfl, rfl, rfl⟩ rfl rfl rfl rfl (by decide) rfl rfl (by decide)
  exact ⟨⟨rfl, rfl, rfl, rfl, rfl, rfl, rfl⟩, by decide, h.2.1, h.2.2.1, h.2.2.2.2.2.2⟩

theorem fetch_log_starts (L : Lib) (gw : Gateway) (c : ContractHandle) (A : String)
    (r : Run) (hA : truthy A = true) :
    ∃ t, (fetchTransactionHistory L gw (some c) (some A) r).log =
      r.log ++ .transactionCounter :: t := by
  unfold fetchTransactionHistory
  simp only [hA, if_true]
  cases gw.transactionCounter with
  | error e => exact ⟨_, by simp [showToast, emit]; rfl⟩
  | ok n =>
    simp only
    rcases historyLoop L gw (L.toLowerCase A) n [] with ⟨res, calls⟩
    cases res with
    | error e => exact ⟨_, by simp [showToast, emit, emitAll]; rfl⟩
    | ok hist => exact ⟨_, by simp [setTransactions, emitAll]; rfl⟩

/-- C12: for a session with a contract and a connected account `A`, when
`handleRegister` is called with a non-empty name, `registerUser` and its
confirmation succeed and the profile fetched again is Active (status 1) with
that name, then `userName` is the name, `userBalance` is `formatEther` of
the ledger balance, exactly one history refresh is started (one
`transactionCounter` call, after the `getUser` call), the busy flag is
cleared and the main content no longer renders the register prompt. -/
theorem handleRegister_success (L : Lib) (gw : Gateway) (s : Session)
    (c : ContractHandle) (A : String) (user : User) (u : Unit)
    (hc : s.contract = some c) (hacc : s.account = some A) (hA : truthy A = true)
    (hN : truthy s.registerName = true)
    (hreg : gw.registerUser s.registerName = .ok (.ok u))
    (huser : gw.getUser (some A) = .ok user) (hst : user.status = 1)
    (hname : user.name = s.registerName) :
    (handleRegister L gw s).s.userName = s.registerName ∧
      (handleRegister L gw s).s.userBalance = L.formatEther user.balance ∧
      countCalls Event.isTransactionCounter (handleRegister L gw s).log = 1 ∧
      (handleRegister L gw s).log.takeWhile (fun e => !e.isTransactionCounter) =
        [.setIsLoading true, .registerUser s.registerName, .wait,
          .showToast "Registration successful!" "success", .getUser (some A),
          .setIsLoading false] ∧
      (handleRegister L gw s).s.isLoading = false ∧
      registerViewRendered (handleRegister L gw s).s = false := by
  obtain ⟨r0, hr0⟩ : ∃ r0 : Run, r0 =
      setIsLoading false (setUserBalance (L.formatEther user.balance)
        (setUserName user.name (emit (.getUser (some A))
          (showToast "Registration successful!" "success" (emit .wait
            (emit (.registerUser s.registerName) (setIsLoading true ⟨s, []⟩))))))) :=
    ⟨_, rfl⟩
  have h : handleRegister L gw s = fetchTransactionHistory L gw (some c) (some A) r0 := by
    rw [hr0]
    unfold handleRegister
    simp [hc, hacc, hN, hreg, huser, hst]
  have hlog0 : r0.log = [.setIsLoading true, .registerUser s.registerName, .wait,
      .showToast "Registration successful!" "success", .getUser (some A),
      .setIsLoading false] := by
    rw [hr0]; rfl
  have hname0 : r0.s.userName = user.name := by rw [hr0]; rfl
  have hbal0 : r0.s.userBalance = L.formatEther user.balance := by rw [hr0]; rfl
  have hload0 : r0.s.isLoading = false := by rw [hr0]; rfl
  have hacc0 : r0.s.account = some A := by rw [hr0]; exact hacc
  rw [h]
  have hp := fetch_profile L gw (some c) (some A) r0
  have hcount := fetch_log_count L gw c A r0 Event.isTransactionCounter hA
    isTransactionCounter_props.1 isTransactionCounter_props.2
  have hid := fetch_identity L gw (some c) (some A) r0
  obtain ⟨t, ht⟩ := fetch_log_starts L gw c A r0 hA
  refine ⟨?_, ?_, ?_, ?_, ?_, ?_⟩
  · rw [hp.1, hname0]; exact hname
  · rw [hp.2, hbal0]
  · unfold countCalls
    rw [hcount, hlog0]
    simp [Event.isTransactionCounter]
  · rw [ht, hlog0]
    simp [List.takeWhile_cons, Event.isTransactionCounter]
  · rw [fetch_isLoading, hload0]
  · have hn : s.registerName ≠ "" := by simpa [truthy] using hN
    simp only [registerViewRendered, hid.1, hp.1, hacc0, hname0, hname]
    simp [truthy, hn]

theorem handleRegister_success_witness :
    aliceRegistering.contract = some ⟨alice⟩ ∧ aliceRegistering.account = some alice ∧
      truthy aliceRegistering.registerName = true ∧
      (handleRegister sampleLib sampleGateway aliceRegistering).s.userName = "Alice" ∧
      (handleRegister sampleLib sampleGateway aliceRegistering).s.userBalance = "5.0" ∧
      registerViewRendered
        (handleRegister sampleLib sampleGateway aliceRegistering).s = false := by
  have h := handleRegister_success sampleLib sampleGateway aliceRegistering ⟨alice⟩ alice
    { name := "Alice", balance := 5 * 10 ^ 18, status := 1 } () rfl rfl (by decide)
    (by decide) rfl rfl rfl rfl
  refine ⟨rfl, rfl, by decide, h.1, ?_, h.2.2.2.2.2⟩
  rw [h.2.1]
  decide

/-! ## Failure notifications -/

theorem errorReason_cases (e : JsError) :
    (∀ x, e.reason = some x → x ≠ "" → errorReason e = x) ∧
      (truthyOpt e.reason = false → ∀ m, e.dataMessage = some m → m ≠ "" →
        errorReason e = m) ∧
      (truthyOpt e.reason = false → truthyOpt e.dataMessage = false →
        errorReason e = "An unknown error occurred.") := by
  rcases e with ⟨reason, dataMessage⟩
  refine ⟨?_, ?_, ?_⟩
  · intro x hx hne
    simp only at hx
    subst hx
    simp [errorReason, orElse, truthy, hne]
  · intro hr m hm hne
    simp only at hm
    subst hm
    cases reason with
    | none => simp [errorReason, orElse, truthy, hne]
    | some x =>
      have hx : x = "" := by simpa [truthyOpt, truthy] using hr
      simp [errorReason, orElse, truthy, hne, hx]
  · intro hr hd
    cases reason with
    | none =>
      cases dataMessage with
      | none => simp [errorReason, orElse]
      | some m =>
        have hm : m = "" := by simpa [truthyOpt, truthy] using hd
        simp [errorReason, orElse, truthy, hm]
    | some x =>
      have hx : x = "" := by simpa [truthyOpt, truthy] using hr
      cases dataMessage with
      | none => simp [errorReason, orElse, truthy, hx]
      | some m =>
        have hm : m = "" := by simpa [truthyOpt, truthy] using hd
        simp [errorReason, orElse, truthy, hx, hm]

theorem handleRegister_rejected (L : Lib) (gw : Gateway) (s : Session) (e : JsError)
    (hc : s.contract.isSome = true) (hN : truthy s.registerName = true)
    (hrej : gw.registerUser s.registerName = .error e ∨
      gw.registerUser s.registerName = .ok (.error e)) :
    ∃ r : Run, r.s = { s with isLoading := true } ∧ handleRegister L gw s = registerFailed e r := by
  obtain ⟨c, hc⟩ := Option.isSome_iff_exists.mp hc
  rcases hrej with h | h
  · exact ⟨emit (.registerUser s.registerName) (setIsLoading true ⟨s, []⟩), rfl,
      by unfold handleRegister; simp [hc, hN, h]⟩
  · exact ⟨emit .wait (emit (.registerUser s.registerName) (setIsLoading true ⟨s, []⟩)), rfl,
      by unfold handleRegister; simp [hc, hN, h]⟩

theorem handlePayment_rejected (L : Lib) (gw : Gateway) (s : Session) (e : JsError)
    (w : Nat) (hv : paymentValid L s = true) (hw : L.parseEther s.paymentAmount = .ok w)
    (hrej : gw.makePayment s.paymentRecipient w = .error e ∨
      gw.makePayment s.paymentRecipient w = .ok (.error e)) :
    ∃ r : Run, r.s = { s with isLoading := true } ∧
      handlePayment L gw s = paymentFailed L gw s e r := by
  rw [handlePayment_valid_unfold L gw s hv]
  rcases hrej with h | h
  · exact ⟨emit (.makePayment s.paymentRecipient w) (setIsLoading true ⟨s, []⟩), rfl,
      by simp [hw, h]⟩
  · exact ⟨emit .wait (emit (.makePayment s.paymentRecipient w) (setIsLoading true ⟨s, []⟩)),
      rfl, by simp [hw, h]⟩

theorem handleSetUserStatus_rejected (L : Lib) (gw : Gateway) (s : Session) (e : JsError)
    (hc : s.contract.isSome = true) (ht : truthy s.adminAddress = true)
    (haddr : L.isAddress s.adminAddress = true)
    (hrej : gw.setUserStatus s.adminAddress s.adminStatus = .error e ∨
      gw.setUserStatus s.adminAddress s.adminStatus = .ok (.error e)) :
    ∃ r : Run, r.s = { s with isLoading := true } ∧
      handleSetUserStatus L gw s = setUserStatusFailed e r := by
  obtain ⟨c, hc⟩ := Option.isSome_iff_exists.mp hc
  rcases hrej with h | h
  · exact ⟨emit (.setUserStatus s.adminAddress s.adminStatus) (setIsLoading true ⟨s, []⟩),
      rfl, by unfold handleSetUserStatus; simp [hc, ht, haddr, h]⟩
  · exact ⟨emit .wait (emit (.setUserStatus s.adminAddress s.adminStatus)
      (setIsLoading true ⟨s, []⟩)), rfl,
      by unfold handleSetUserStatus; simp [hc, ht, haddr, h]⟩

/-- C13 as stated fails: `makePayment` fails with an error that carries no
`reason` but carries `data.message` 'execution reverted'; the notification
reads 'Payment failed: execution reverted', not the generic message. -/
theorem handlePayment_data_message_shown :
    paymentValid sampleLib alicePaying = true ∧
      revertingGateway.makePayment bob (10 ^ 18) =
        .error ⟨none, some "execution reverted"⟩ ∧
      (handlePayment sampleLib revertingGateway alicePaying).s.toast =
        some ⟨"Payment failed: execution reverted", "error"⟩ ∧
      (handlePayment sampleLib revertingGateway alicePaying).s.toast ≠
        some ⟨"Payment failed: An unknown error occurred.", "error"⟩ :=
  ⟨by decide, rfl, by decide, by decide⟩

/-- C13 amended: when the `registerUser`, `makePayment` or `setUserStatus`
call of a handler fails (when sent or when confirmed) with error `e`, the
handler ends with the error notification whose text is the failure prefix of
the action followed by `errorReason e`, and that notification is in its log;
`errorReason e` is the reason verbatim when the error carries a non-empty
reason, otherwise `error.data.message` when that is present and non-empty,
and otherwise the generic message 'An unknown error occurred.'. -/
theorem failure_notification_text (L : Lib) (gw : Gateway) (s : Session) (e : JsError) :
    (s.contract.isSome = true → truthy s.registerName = true →
        (gw.registerUser s.registerName = .error e ∨
          gw.registerUser s.registerName = .ok (.error e)) →
        (handleRegister L gw s).s.toast =
            some ⟨"Registration failed: " ++ errorReason e, "error"⟩ ∧
          Event.showToast ("Registration failed: " ++ errorReason e) "error" ∈
            (handleRegister L gw s).log) ∧
      (paymentValid L s = true → ∀ w, L.parseEther s.paymentAmount = .ok w →
        (gw.makePayment s.paymentRecipient w = .error e ∨
          gw.makePayment s.paymentRecipient w = .ok (.error e)) →
        (handlePayment L gw s).s.toast =
            some ⟨"Payment failed: " ++ errorReason e, "error"⟩ ∧
          Event.showToast ("Payment failed: " ++ errorReason e) "error" ∈
            (handlePayment L gw s).log) ∧
      (s.contract.isSome = true → truthy s.adminAddress = true →
        L.isAddress s.adminAddress = true →
        (gw.setUserStatus s.adminAddress s.adminStatus = .error e ∨
          gw.setUserStatus s.adminAddress s.adminStatus = .ok (.error e)) →
        (handleSetUserStatus L gw s).s.toast =
            some ⟨"Failed to set user status: " ++ errorReason e, "error"⟩ ∧
          Event.showToast ("Failed to set user status: " ++ errorReason e) "error" ∈
            (handleSetUserStatus L gw s).log) ∧
      (∀ x, e.reason = some x → x ≠ "" → errorReason e = x) ∧
      (truthyOpt e.reason = false → ∀ m, e.dataMessage = some m → m ≠ "" →
        errorReason e = m) ∧
      (truthyOpt e.reason = false → truthyOpt e.dataMessage = false →
        errorReason e = "An unknown error occurred.") := by
  refine ⟨?_, ?_, ?_, errorReason_cases e⟩
  · intro hc hN hrej
    obtain ⟨r, -, h⟩ := handleRegister_rejected L gw s e hc hN hrej
    rw [h]
    simp [registerFailed, setIsLoading, showToast, emit]
  · intro hv w hw hrej
    obtain ⟨r, -, h⟩ := handlePayment_rejected L gw s e w hv hw hrej
    rw [h]
    simp [paymentFailed, setIsLoading, showToast, emit]
  · intro hc ht haddr hrej
    obtain ⟨r, -, h⟩ := handleSetUserStatus_rejected L gw s e hc ht haddr hrej
    rw [h]
    simp [setUserStatusFailed, setIsLoading, showToast, emit]

theorem failure_notification_text_witness :
    paymentValid sampleLib alicePaying = true ∧
      sampleLib.parseEther alicePaying.paymentAmount = .ok (10 ^ 18) ∧
      rejectingGateway.makePayment alicePaying.paymentRecipient (10 ^ 18) =
        .error ⟨some "amount exceeds limit", none⟩ ∧
      (handlePayment sampleLib rejectingGateway alicePaying).s.toast =
        some ⟨"Payment failed: " ++ errorReason ⟨some "amount exceeds limit", none⟩,
          "error"⟩ ∧
      errorReason ⟨some "amount exceeds limit", none⟩ = "amount exceeds limit" := by
  have hw : sampleLib.parseEther alicePaying.paymentAmount = .ok (10 ^ 18) := by rfl
  have hrej : rejectingGateway.makePayment alicePaying.paymentRecipient (10 ^ 18) =
      .error ⟨some "amount exceeds limit", none⟩ := rfl
  exact ⟨by decide, hw, hrej,
    ((failure_notification_text sampleLib rejectingGateway alicePaying
      ⟨some "amount exceeds limit", none⟩).2.1 (by decide) (10 ^ 18) hw (Or.inl hrej)).1,
    (failure_notification_text sampleLib rejectingGateway alicePaying
      ⟨some "amount exceeds limit", none⟩).2.2.2.1 "amount exceeds limit" rfl (by decide)⟩

/-! ## Rejected status changes -/

/-- C15: when the `setUserStatus` call of `handleSetUserStatus` is rejected
(when sent or when confirmed) with error `e`, the session afterwards is the
session before except for the notification, which is the error 'Failed to
set user status: ' followed by the reason, and the busy flag, which is
cleared; so `account`, `isOwner`, `userName`, `userBalance` and
`transactions` are unchanged, and the only remote call made is the rejected
one. -/
theorem handleSetUserStatus_rejection_frame (L : Lib) (gw : Gateway) (s : Session)
    (e : JsError) (hc : s.contract.isSome = true) (ht : truthy s.adminAddress = true)
    (haddr : L.isAddress s.adminAddress = true)
    (hrej : gw.setUserStatus s.adminAddress s.adminStatus = .error e ∨
      gw.setUserStatus s.adminAddress s.adminStatus = .ok (.error e)) :
    (handleSetUserStatus L gw s).s =
        { s with
          toast := some ⟨"Failed to set user status: " ++ errorReason e, "error"⟩,
          isLoading := false } ∧
      (handleSetUserStatus L gw s).s.account = s.account ∧
      (handleSetUserStatus L gw s).s.isOwner = s.isOwner ∧
      (handleSetUserStatus L gw s).s.userName = s.userName ∧
      (handleSetUserStatus L gw s).s.userBalance = s.userBalance ∧
      (handleSetUserStatus L gw s).s.transactions = s.transactions ∧
      Event.showToast ("Failed to set user status: " ++ errorReason e) "error" ∈
        (handleSetUserStatus L gw s).log ∧
      countCalls Event.isGatewayCall ((handleSetUserStatus L gw s).log.filter
        fun ev => ev != .wait) = 1 := by
  obtain ⟨c, hc⟩ := Option.isSome_iff_exists.mp hc
  rcases hrej with h | h
  · have hrun : handleSetUserStatus L gw s =
        setUserStatusFailed e
          (emit (.setUserStatus s.adminAddress s.adminStatus) (setIsLoading true ⟨s, []⟩)) := by
      unfold handleSetUserStatus; simp [hc, ht, haddr, h]
    rw [hrun]
    refine ⟨rfl, rfl, rfl, rfl, rfl, rfl, ?_, ?_⟩
    · simp [setUserStatusFailed, setIsLoading, showToast, emit]
    · simp [countCalls, setUserStatusFailed, setIsLoading, showToast, emit,
        Event.isGatewayCall, List.filter_cons]
  · have hrun : handleSetUserStatus L gw s =
        setUserStatusFailed e (emit .wait
          (emit (.setUserStatus s.adminAddress s.adminStatus) (setIsLoading true ⟨s, []⟩))) := by
      unfold handleSetUserStatus; simp [hc, ht, haddr, h]
    rw [hrun]
    refine ⟨rfl, rfl, rfl, rfl, rfl, rfl, ?_, ?_⟩
    · simp [setUserStatusFailed, setIsLoading, showToast, emit]
    · simp [countCalls, setUserStatusFailed, setIsLoading, showToast, emit,
        Event.isGatewayCall, List.filter_cons]

theorem handleSetUserStatus_rejection_frame_witness :
    aliceSuspendingBob.contract.isSome = true ∧
      truthy aliceSuspendingBob.adminAddress = true ∧
      sampleLib.isAddress aliceSuspendingBob.adminAddress = true ∧
      (handleSetUserStatus sampleLib ownerOnlyGateway aliceSuspendingBob).s.transactions =
        aliceSuspendingBob.transactions ∧
      (handleSetUserStatus sampleLib ownerOnlyGateway aliceSuspendingBob).s.userName =
        "Alice" :=
  ⟨rfl, by decide, by decide,
    (handleSetUserStatus_rejection_frame sampleLib ownerOnlyGateway aliceSuspendingBob
      ⟨some "Only owner can call this", none⟩ rfl (by decide) (by decide)
      (Or.inl rfl)).2.2.2.2.2.1,
    (handleSetUserStatus_rejection_frame sampleLib ownerOnlyGateway aliceSuspendingBob
      ⟨some "Only owner can call this", none⟩ rfl (by decide) (by decide)
      (Or.inl rfl)).2.2.2.1⟩

/-! ## Repeated and late history runs -/

theorem fetch_twice (L : Lib) (gw : Gateway) (oc : Option ContractHandle)
    (oa : Option String) (r : Run) :
    (fetchTransactionHistory L gw oc oa (fetchTransactionHistory L gw oc oa r)).s =
      (fetchTransactionHistory L gw oc oa r).s := by
  cases oc with
  | none => simp [fetchTransactionHistory]
  | some c =>
    cases oa with
    | none => simp [fetchTransactionHistory]
    | some A =>
      by_cases hA : truthy A = true
      · cases hcount : gw.transactionCounter with
        | error e => simp [fetchTransactionHistory, hA, hcount, showToast, emit]
        | ok n =>
          rcases hpair : historyLoop L gw (L.toLowerCase A) n [] with ⟨res, calls⟩
          cases res with
          | error e =>
            simp [fetchTransactionHistory, hA, hcount, hpair, showToast, emit, emitAll]
          | ok hist =>
            simp [fetchTransactionHistory, hA, hcount, hpair, setTransactions, emitAll]
      · simp [fetchTransactionHistory, hA]

/-- C16: for a gateway serving an unchanged ledger and a connected account,
every successful run of `fetchTransactionHistory` publishes the same list
whatever session it starts from, so the run that follows another run
publishes the identical list (same entries, fields and order); and for every
gateway a second run leaves the session exactly as the first run left it. -/
theorem fetchTransactionHistory_idempotent (L : Lib) (gw : Gateway) (c : ContractHandle)
    (A : String) (r : Run) (txs : List Transaction) (hA : truthy A = true)
    (hled : gw.servesLedger txs) :
    publishedHistory L gw c A (fetchTransactionHistory L gw (some c) (some A) r) =
        publishedHistory L gw c A r ∧
      (∀ r1 r2, publishedHistory L gw c A r1 = publishedHistory L gw c A r2) ∧
      (fetchTransactionHistory L gw (some c) (some A)
        (fetchTransactionHistory L gw (some c) (some A) r)).s =
        (fetchTransactionHistory L gw (some c) (some A) r).s := by
  have h : ∀ r1 r2, publishedHistory L gw c A r1 = publishedHistory L gw c A r2 := by
    intro r1 r2
    unfold publishedHistory
    rw [fetch_transactions L gw c A r1 txs hA hled, fetch_transactions L gw c A r2 txs hA hled]
  exact ⟨h _ _, h, fetch_twice L gw (some c) (some A) r⟩

theorem fetchTransactionHistory_idempotent_witness :
    truthy alice = true ∧ sampleGateway.servesLedger sampleLedger ∧
      publishedHistory sampleLib sampleGateway ⟨alice⟩ alice
        (fetchTransactionHistory sampleLib sampleGateway (some ⟨alice⟩) (some alice)
          ⟨aliceSession, []⟩) =
        publishedHistory sampleLib sampleGateway ⟨alice⟩ alice ⟨aliceSession, []⟩ := by
  have hs := ledgerGateway_serves sampleLedger alice activeUsers sampleLedger_ids
  exact ⟨by decide, hs,
    (fetchTransactionHistory_idempotent sampleLib sampleGateway ⟨alice⟩ alice
      ⟨aliceSession, []⟩ sampleLedger (by decide) hs).1⟩

/-- C17 as stated fails: alice disconnects and bob connects, so the session
holds bob's account and bob's history (ids 2 and 1); when the history run
started for alice completes on that session, `transactions` becomes alice's
history (ids 3 and 1) while `account` is still bob. -/
theorem stale_history_overwrites_new_session :
    bobSession.account = some bob ∧
      bobSession.transactions.map (fun e => e.id) = [2, 1] ∧
      (fetchTransactionHistory sampleLib sampleGateway (some ⟨alice⟩) (some alice)
        ⟨bobSession, []⟩).s.account = some bob ∧
      (fetchTransactionHistory sampleLib sampleGateway (some ⟨alice⟩) (some alice)
        ⟨bobSession, []⟩).s.transactions.map (fun e => (e.id, e.role)) =
        [(3, "received"), (1, "sent")] ∧
      (fetchTransactionHistory sampleLib sampleGateway (some ⟨alice⟩) (some alice)
        ⟨bobSession, []⟩).s.transactions ≠ bobSession.transactions := by
  decide

/-- C17 amended: results for a stale session are not dropped, because
neither function compares its account with the session's.  A history run
started for account `A` on a gateway serving the ledger publishes the
history of `A` on whatever session it completes on and leaves that session's
`account` as it is (the account of a later connection included); a profile
refresh started for `A` likewise sets `userName` and `userBalance` from the
profile of `A` and leaves `account` as it is. -/
theorem stale_results_are_applied (L : Lib) (gw : Gateway) (c : ContractHandle)
    (A : String) (r : Run) (txs : List Transaction) (hA : truthy A = true)
    (hled : gw.servesLedger txs) :
    (fetchTransactionHistory L gw (some c) (some A) r).s.transactions =
        ((txs.filter (participates L A)).reverse).map (historyEntry L (L.toLowerCase A)) ∧
      (fetchTransactionHistory L gw (some c) (some A) r).s.account = r.s.account ∧
      ∀ user, gw.getUser (some A) = .ok user →
        (refreshUser L gw (some c) (some A) r).s.userName = user.name ∧
        (refreshUser L gw (some c) (some A) r).s.userBalance = L.formatEther user.balance ∧
        (refreshUser L gw (some c) (some A) r).s.account = r.s.account := by
  refine ⟨fetch_transactions L gw c A r txs hA hled,
    (fetch_identity L gw (some c) (some A) r).1, ?_⟩
  intro user huser
  unfold refreshUser
  simp [hA, huser, emit, setUserName, setUserBalance]

theorem stale_results_are_applied_witness :
    truthy alice = true ∧ sampleGateway.servesLedger sampleLedger ∧
      bobSession.account = some bob ∧
      (fetchTransactionHistory sampleLib sampleGateway (some ⟨alice⟩) (some alice)
        ⟨bobSession, []⟩).s.account = bobSession.account ∧
      (fetchTransactionHistory sampleLib sampleGateway (some ⟨alice⟩) (some alice)
        ⟨bobSession, []⟩).s.transactions =
        ((sampleLedger.filter (participates sampleLib alice)).reverse).map
          (historyEntry sampleLib (sampleLib.toLowerCase alice)) := by
  have hs := ledgerGateway_serves sampleLedger alice activeUsers sampleLedger_ids
  have h := stale_results_are_applied sampleLib sampleGateway ⟨alice⟩ alice ⟨bobSession, []⟩
    sampleLedger (by decide) hs
  exact ⟨by decide, hs, by decide, h.2.1, h.1⟩

/-! ## Failed connections -/

/-- C18 as stated fails: from the initial state, with the accounts and the
signer answered and `owner()` failing, `connectWallet` reports 'Failed to
connect wallet' and leaves `account` and `contract` set. -/
theorem connectWallet_owner_failure_keeps_account :
    isBaseline Session.initial ∧
      ownerlessGateway.owner = .error ⟨none, none⟩ ∧
      (connectWallet sampleLib ownerlessGateway Session.initial).s.toast =
        some ⟨"Failed to connect wallet", "error"⟩ ∧
      (connectWallet sampleLib ownerlessGateway Session.initial).s.account = some alice ∧
      (connectWallet sampleLib ownerlessGateway Session.initial).s.contract =
        some ⟨alice⟩ ∧
      (connectWallet sampleLib ownerlessGateway Session.initial).s.account ≠ none :=
  ⟨⟨rfl, rfl, rfl, rfl, rfl, rfl, rfl⟩, rfl, by decide, by decide, by decide, by decide⟩

/-- C18 amended: from the no-account baseline, when `connectWallet` fails
because no wallet provider is present, because the authorization is declined
or because `getSigner` fails, the session keeps `account = null`,
`contract = null` and `isOwner = false`; when it fails later, the account
and the contract are already stored: if `owner()` fails, `account` is
`accounts[0]`, `contract` is set and `isOwner` is still false, and if
`getUser` fails, `account` is `accounts[0]`, `contract` is set and `isOwner`
is the comparison of the account with the owner in lower case. -/
theorem connectWallet_failure_state (L : Lib) (gw : Gateway) (s : Session)
    (hbase : isBaseline s) :
    (gw.hasEthereum = false →
        (connectWallet L gw s).s.account = none ∧ (connectWallet L gw s).s.contract = none ∧
          (connectWallet L gw s).s.isOwner = false) ∧
      (gw.hasEthereum = true → (∃ e, gw.requestAccounts = .error e) →
        (connectWallet L gw s).s.account = none ∧ (connectWallet L gw s).s.contract = none ∧
          (connectWallet L gw s).s.isOwner = false) ∧
      (gw.hasEthereum = true → ∀ accounts, gw.requestAccounts = .ok accounts →
        (∃ e, gw.getSigner = .error e) →
        (connectWallet L gw s).s.account = none ∧ (connectWallet L gw s).s.contract = none ∧
          (connectWallet L gw s).s.isOwner = false) ∧
      (gw.hasEthereum = true → ∀ accounts signer, gw.requestAccounts = .ok accounts →
        gw.getSigner = .ok signer → (∃ e, gw.owner = .error e) →
        (connectWallet L gw s).s.account = accounts.head? ∧
          (connectWallet L gw s).s.contract = some ⟨signer⟩ ∧
          (connectWallet L gw s).s.isOwner = false) ∧
      (gw.hasEthereum = true → ∀ accounts signer ownerAddress acct,
        gw.requestAccounts = .ok accounts → gw.getSigner = .ok signer →
        gw.owner = .ok ownerAddress → accounts.head? = some acct →
        (∃ e, gw.getUser (some acct) = .error e) →
        (connectWallet L gw s).s.account = some acct ∧
          (connectWallet L gw s).s.contract = some ⟨signer⟩ ∧
          (connectWallet L gw s).s.isOwner =
            (L.toLowerCase acct == L.toLowerCase ownerAddress)) := by
  obtain ⟨hacc, hcon, hown, -, -, -, -⟩ := hbase
  refine ⟨?_, ?_, ?_, ?_, ?_⟩
  · intro heth
    unfold connectWallet
    simp [heth, showToast, emit, hacc, hcon, hown]
  · rintro heth ⟨e, he⟩
    unfold connectWallet
    simp [heth, he, connectFailed, setIsLoading, showToast, emit, hacc, hcon, hown]
  · rintro heth accounts hreq ⟨e, he⟩
    unfold connectWallet
    simp [heth, hreq, he, connectFailed, setIsLoading, showToast, emit, hacc, hcon, hown]
  · rintro heth accounts signer hreq hsig ⟨e, he⟩
    unfold connectWallet
    simp [heth, hreq, hsig, he, connectFailed, setIsLoading, showToast, emit, setAccount,
      setContract, hown]
  · rintro heth accounts signer ownerAddress acct hreq hsig ho hhead ⟨e, he⟩
    unfold connectWallet
    simp [heth, hreq, hsig, ho, hhead, he, connectFailed, setIsLoading, showToast, emit,
      setAccount, setContract, setIsOwner]

theorem connectWallet_failure_state_witness :
    isBaseline Session.initial ∧ declinedGateway.hasEthereum = true ∧
      (∃ e, declinedGateway.requestAccounts = .error e) ∧
      (connectWallet sampleLib declinedGateway Session.initial).s.account = none ∧
      (connectWallet sampleLib declinedGateway Session.initial).s.contract = none ∧
      (connectWallet sampleLib declinedGateway Session.initial).s.isOwner = false :=
  ⟨⟨rfl, rfl, rfl, rfl, rfl, rfl, rfl⟩, rfl, ⟨_, rfl⟩,
    (connectWallet_failure_state sampleLib declinedGateway Session.initial
      ⟨rfl, rfl, rfl, rfl, rfl, rfl, rfl⟩).2.1 rfl ⟨_, rfl⟩⟩

/-! ## Returning to idle -/

theorem connectWallet_idle (L : Lib) (gw : Gateway) (s : Session) :
    (connectWallet L gw s).s.isLoading = false ∨
      ∀ e ∈ (connectWallet L gw s).log, e.setsBusy = false := by
  unfold connectWallet
  split
  · left
    simp only
    cases gw.requestAccounts with
    | error e => simp [connectFailed, setIsLoading, showToast, emit]
    | ok accounts =>
      simp only
      cases gw.getSigner with
      | error e => simp [connectFailed, setIsLoading, showToast, emit]
      | ok signer =>
        simp only
        cases gw.owner with
        | error e => simp [connectFailed, setIsLoading, showToast, emit]
        | ok ownerAddress =>
          simp only
          cases accounts.head? with
          | none => simp [connectFailed, setIsLoading, showToast, emit]
          | some acct =>
            simp only
            cases gw.getUser (some acct) with
            | error e => simp [connectFailed, setIsLoading, showToast, emit]
            | ok user =>
              simp only
              split
              · rw [fetch_isLoading]
                simp [setIsLoading, emit]
              · simp [setIsLoading, emit]
  · right
    simp [showToast, emit, Event.setsBusy]

theorem handleRegister_idle (L : Lib) (gw : Gateway) (s : Session) :
    (handleRegister L gw s).s.isLoading = false ∨
      ∀ e ∈ (handleRegister L gw s).log, e.setsBusy = false := by
  unfold handleRegister
  cases s.contract with
  | none => right; simp
  | some c =>
    simp only
    split
    · left
      cases gw.registerUser s.registerName with
      | error e => simp [registerFailed, setIsLoading, showToast, emit]
      | ok tx =>
        cases tx with
        | error e => simp [registerFailed, setIsLoading, showToast, emit]
        | ok u =>
          simp only
          cases gw.getUser s.account with
          | error e => simp [registerFailed, setIsLoading, showToast, emit]
          | ok user =>
            simp only
            split
            · rw [fetch_isLoading]
              simp [setIsLoading, emit]
            · simp [setIsLoading, emit]
    · right; simp

theorem handlePayment_idle (L : Lib) (gw : Gateway) (s : Session) :
    (handlePayment L gw s).s.isLoading = false ∨
      ∀ e ∈ (handlePayment L gw s).log, e.setsBusy = false := by
  cases hv : paymentValid L s with
  | false =>
    right
    rcases handlePayment_invalid_unfold L gw s hv with h | h | h <;> rw [h] <;>
      simp [showToast, emit, Event.setsBusy]
  | true =>
    left
    rw [handlePayment_valid_unfold L gw s hv]
    cases L.parseEther s.paymentAmount with
    | error e => simp [paymentFailed, setIsLoading, showToast, emit]
    | ok w =>
      simp only
      cases gw.makePayment s.paymentRecipient w with
      | error e => simp [paymentFailed, setIsLoading, showToast, emit]
      | ok tx =>
        cases tx with
        | error e => simp [paymentFailed, setIsLoading, showToast, emit]
        | ok u =>
          simp only
          rw [fetch_isLoading]
          simp [setIsLoading, emit]

theorem handleSetUserStatus_idle (L : Lib) (gw : Gateway) (s : Session) :
    (handleSetUserStatus L gw s).s.isLoading = false ∨
      ∀ e ∈ (handleSetUserStatus L gw s).log, e.setsBusy = false := by
  unfold handleSetUserStatus
  cases s.contract with
  | none => right; simp
  | some c =>
    simp only
    split
    · split
      · right
        simp [showToast, emit, Event.setsBusy]
      · left
        cases gw.setUserStatus s.adminAddress s.adminStatus with
        | error e => simp [setUserStatusFailed, setIsLoading, showToast, emit]
        | ok tx =>
          cases tx with
          | error e => simp [setUserStatusFailed, setIsLoading, showToast, emit]
          | ok u => simp [setIsLoading, emit]
    · right; simp

theorem refreshAll_idle (L : Lib) (gw : Gateway) (s : Session) :
    (refreshAll L gw s).s.isLoading = false ∨
      ∀ e ∈ (refreshAll L gw s).log, e.setsBusy = false := by
  unfold refreshAll
  cases s.contract with
  | none => right; simp
  | some c =>
    simp only
    split
    · left; simp [setIsLoading, emit]
    · right; simp

theorem idle_of_busy (r : Run)
    (h : r.s.isLoading = false ∨ ∀ e ∈ r.log, e.setsBusy = false)
    (hb : ∃ e ∈ r.log, e.setsBusy = true) : r.s.isLoading = false := by
  rcases h with h | h
  · exact h
  · obtain ⟨e, he, hs⟩ := hb
    rw [h e he] at hs
    cases hs

/-- C19: every run of `connectWallet`, `handleRegister`, `handlePayment`,
`handleSetUserStatus` or `refreshAll` whose log contains the write
`setIsLoading(true)` ends with `isLoading` false, whatever the gateway
answers (success or failure of every remote call). -/
theorem handlers_return_to_idle (L : Lib) (gw : Gateway) (s : Session) :
    ((∃ e ∈ (connectWallet L gw s).log, e.setsBusy = true) →
        (connectWallet L gw s).s.isLoading = false) ∧
      ((∃ e ∈ (handleRegister L gw s).log, e.setsBusy = true) →
        (handleRegister L gw s).s.isLoading = false) ∧
      ((∃ e ∈ (handlePayment L gw s).log, e.setsBusy = true) →
        (handlePayment L gw s).s.isLoading = false) ∧
      ((∃ e ∈ (handleSetUserStatus L gw s).log, e.setsBusy = true) →
        (handleSetUserStatus L gw s).s.isLoading = false) ∧
      ((∃ e ∈ (refreshAll L gw s).log, e.setsBusy = true) →
        (refreshAll L gw s).s.isLoading = false) :=
  ⟨idle_of_busy _ (connectWallet_idle L gw s), idle_of_busy _ (handleRegister_idle L gw s),
    idle_of_busy _ (handlePayment_idle L gw s),
    idle_of_busy _ (handleSetUserStatus_idle L gw s),
    idle_of_busy _ (refreshAll_idle L gw s)⟩

theorem handlers_return_to_idle_witness :
    (∃ e ∈ (handlePayment sampleLib rejectingGateway alicePaying).log, e.setsBusy = true) ∧
      (handlePayment sampleLib rejectingGateway alicePaying).s.isLoading = false ∧
      (∃ e ∈ (connectWallet sampleLib ownerlessGateway Session.initial).log,
        e.setsBusy = true) ∧
      (connectWallet sampleLib ownerlessGateway Session.initial).s.isLoading = false := by
  have hp : ∃ e ∈ (handlePayment sampleLib rejectingGateway alicePaying).log,
      e.setsBusy = true := ⟨.setIsLoading true, by decide, rfl⟩
  have hcn : ∃ e ∈ (connectWallet sampleLib ownerlessGateway Session.initial).log,
      e.setsBusy = true := ⟨.setIsLoading true, by decide, rfl⟩
  exact ⟨hp, (handlers_return_to_idle sampleLib rejectingGateway alicePaying).2.2.1 hp, hcn,
    (handlers_return_to_idle sampleLib ownerlessGateway Session.initial).1 hcn⟩

/-! ## The stretches of a handler make up its whole run -/

theorem connectWallet_stretches (L : Lib) (gw : Gateway) (s : Session) :
    (startConnect gw ⟨s, []⟩).finish L 4 = connectWallet L gw s := by
  unfold startConnect connectWallet
  by_cases heth : gw.hasEthereum = true
  · simp only [heth, if_true]
    cases hreq : gw.requestAccounts with
    | error e => simp [Resumed.finish, InFlight.resume, hreq]
    | ok accounts =>
      cases hsig : gw.getSigner with
      | error e => simp [Resumed.finish, InFlight.resume, hreq, hsig]
      | ok signer =>
        cases hown : gw.owner with
        | error e => simp [Resumed.finish, InFlight.resume, hreq, hsig, hown]
        | ok ownerAddress =>
          cases hhead : accounts.head? with
          | none => simp [Resumed.finish, InFlight.resume, hreq, hsig, hown, hhead]
          | some acct =>
            cases huser : gw.getUser (some acct) with
            | error e =>
              simp [Resumed.finish, InFlight.resume, hreq, hsig, hown, hhead, huser]
            | ok user =>
              by_cases hst : user.status = 1
              · simp [Resumed.finish, InFlight.resume, Detached.land, hreq, hsig, hown,
                  hhead, huser, hst]
              · simp [Resumed.finish, InFlight.resume, Detached.land, hreq, hsig, hown,
                  hhead, huser, hst]
  · simp [heth, Resumed.finish]

theorem handleRegister_stretches (L : Lib) (gw : Gateway) (s : Session) :
    (startRegister gw ⟨s, []⟩).finish L 3 = handleRegister L gw s := by
  unfold startRegister handleRegister
  cases hc : s.contract with
  | none => simp [Resumed.finish]
  | some c =>
    by_cases hN : truthy s.registerName = true
    · simp only [hN, if_true]
      cases hreg : gw.registerUser s.registerName with
      | error e => simp [Resumed.finish, InFlight.resume, hreg]
      | ok tx =>
        cases tx with
        | error e => simp [Resumed.finish, InFlight.resume, hreg]
        | ok u =>
          cases huser : gw.getUser s.account with
          | error e => simp [Resumed.finish, InFlight.resume, hreg, huser]
          | ok user =>
            by_cases hst : user.status = 1
            · simp [Resumed.finish, InFlight.resume, Detached.land, hreg, huser, hst, hc]
            · simp [Resumed.finish, InFlight.resume, Detached.land, hreg, huser, hst]
    · simp [hN, Resumed.finish]

theorem handlePayment_stretches (L : Lib) (gw : Gateway) (s : Session) :
    (startPayment L gw ⟨s, []⟩).finish L 3 = handlePayment L gw s := by
  unfold startPayment handlePayment
  cases hc : s.contract with
  | none => simp [Resumed.finish]
  | some c =>
    simp only
    split
    · split
      · simp [Resumed.finish]
      · split
        · simp [Resumed.finish]
        · cases hpe : L.parseEther s.paymentAmount with
          | error e => simp [Resumed.finish, InFlight.resume]
          | ok w =>
            cases hmp : gw.makePayment s.paymentRecipient w with
            | error e => simp [Resumed.finish, InFlight.resume, hmp]
            | ok tx =>
              cases tx with
              | error e => simp [Resumed.finish, InFlight.resume, hmp]
              | ok u => simp [Resumed.finish, InFlight.resume, Detached.land, hmp, hc]
    · simp [Resumed.finish]

theorem handleSetUserStatus_stretches (L : Lib) (gw : Gateway) (s : Session) :
    (startSetUserStatus L gw ⟨s, []⟩).finish L 2 = handleSetUserStatus L gw s := by
  unfold startSetUserStatus handleSetUserStatus
  cases hc : s.contract with
  | none => simp [Resumed.finish]
  | some c =>
    simp only
    split
    · split
      · simp [Resumed.finish]
      · cases hst : gw.setUserStatus s.adminAddress s.adminStatus with
        | error e => simp [Resumed.finish, InFlight.resume, hst]
        | ok tx =>
          cases tx with
          | error e => simp [Resumed.finish, InFlight.resume, hst]
          | ok u => simp [Resumed.finish, InFlight.resume, hst]
    · simp [Resumed.finish]

theorem refreshAll_stretches (L : Lib) (gw : Gateway) (s : Session) :
    (startRefresh gw ⟨s, []⟩).finish L 2 = refreshAll L gw s := by
  unfold startRefresh refreshAll
  cases hc : s.contract with
  | none => simp [Resumed.finish]
  | some c =>
    simp only
    split
    · simp [Resumed.finish, InFlight.resume, hc]
    · simp [Resumed.finish]

/-! ## One handler in flight -/

theorem start_busy (L : Lib) (gw : Gateway) (r : Run) :
    ((startConnect gw r).next.isSome = true → (startConnect gw r).run.s.isLoading = true) ∧
      ((startRegister gw r).next.isSome = true →
        (startRegister gw r).run.s.isLoading = true) ∧
      ((startPayment L gw r).next.isSome = true →
        (startPayment L gw r).run.s.isLoading = true) ∧
      ((startSetUserStatus L gw r).next.isSome = true →
        (startSetUserStatus L gw r).run.s.isLoading = true) ∧
      ((startRefresh gw r).next.isSome = true →
        (startRefresh gw r).run.s.isLoading = true) := by
  refine ⟨?_, ?_, ?_, ?_, ?_⟩
  · unfold startConnect
    split <;> simp [setIsLoading, emit]
  · unfold startRegister
    cases r.s.contract with
    | none => simp
    | some c =>
      simp only
      split <;> simp [setIsLoading, emit]
  · unfold startPayment
    cases r.s.contract with
    | none => simp
    | some c =>
      simp only
      split
      · split
        · simp
        · split
          · simp
          · cases L.parseEther r.s.paymentAmount <;> simp [setIsLoading, emit]
      · simp
  · unfold startSetUserStatus
    cases r.s.contract with
    | none => simp
    | some c =>
      simp only
      split
      · split <;> simp [setIsLoading, emit]
      · simp
  · unfold startRefresh
    cases r.s.contract with
    | none => simp
    | some c =>
      simp only
      split <;> simp [setIsLoading, emit]

theorem resume_busy (L : Lib) (h : InFlight) (r : Run)
    (hn : (h.resume L r).next.isSome = true) :
    (h.resume L r).run.s.isLoading = r.s.isLoading := by
  revert hn
  cases h with
  | connectAccounts gw =>
    simp only [InFlight.resume]
    cases gw.requestAccounts <;> simp [emit]
  | connectSigner gw accounts =>
    simp only [InFlight.resume]
    cases gw.getSigner <;> simp [emit, setContract, setAccount]
  | connectOwner gw acct c =>
    simp only [InFlight.resume]
    cases gw.owner with
    | error e => simp
    | ok o => cases acct <;> simp [emit, setIsOwner]
  | connectUser gw acct c =>
    simp only [InFlight.resume]
    cases gw.getUser (some acct) with
    | error e => simp
    | ok user =>
      simp only
      split <;> simp
  | registerSent gw s =>
    simp only [InFlight.resume]
    cases gw.registerUser s.registerName <;> simp [emit]
  | registerWait gw s tx =>
    simp only [InFlight.resume]
    cases tx <;> simp [emit, showToast]
  | registerProfile gw s =>
    simp only [InFlight.resume]
    cases gw.getUser s.account with
    | error e => simp
    | ok user =>
      simp only
      split <;> simp
  | paySent gw s w =>
    simp only [InFlight.resume]
    cases gw.makePayment s.paymentRecipient w <;> simp [emit]
  | payWait gw s tx =>
    simp only [InFlight.resume]
    cases tx <;> simp [emit, showToast]
  | payProfile gw s => simp [InFlight.resume]
  | payFailed gw s e => simp [InFlight.resume]
  | statusSent gw s =>
    simp only [InFlight.resume]
    cases gw.setUserStatus s.adminAddress s.adminStatus <;> simp [emit]
  | statusWait gw s tx =>
    simp only [InFlight.resume]
    cases tx <;> simp
  | refreshProfile gw s =>
    intro _
    simp only [InFlight.resume]
    exact refreshUser_isLoading L gw s.contract s.account r
  | refreshHistory gw s => simp [InFlight.resume]

theorem after_busy (p : PageState) (x : Resumed)
    (hx : x.next.isSome = true → x.run.s.isLoading = true) :
    (p.after [] x).inflight = [] ∨
      ∃ h, (p.after [] x).inflight = [h] ∧ (p.after [] x).run.s.isLoading = true := by
  rcases x with ⟨r, next, started⟩
  cases next with
  | none => left; simp [PageState.after]
  | some h => right; exact ⟨h, by simp [PageState.after], hx rfl⟩

theorem idle_of_not_loading (p : PageState)
    (hp : p.inflight = [] ∨ ∃ h, p.inflight = [h] ∧ p.run.s.isLoading = true)
    (hl : p.run.s.isLoading = false) : p.inflight = [] := by
  rcases hp with hp | ⟨h, -, hb⟩
  · exact hp
  · rw [hl] at hb; cases hb

theorem busy_invariant (L : Lib) (p : PageState) (hr : PageReachable L p) :
    p.inflight = [] ∨ ∃ h, p.inflight = [h] ∧ p.run.s.isLoading = true := by
  induction hr with
  | initial => left; rfl
  | step p e _ ih =>
    cases e with
    | clickConnect gw =>
      simp only [PageState.step]
      split
      · rename_i hoff
        have hl : p.run.s.isLoading = false := by
          simp [connectOffered] at hoff; exact hoff.2
        have hnil := idle_of_not_loading p ih hl
        rw [hnil]
        exact after_busy p _ (start_busy L gw p.run).1
      · exact ih
    | submitRegister gw =>
      simp only [PageState.step]
      split
      · rename_i hoff
        have hl : p.run.s.isLoading = false := by
          simp [registerOffered, submitDisabled] at hoff; exact hoff.2
        have hnil := idle_of_not_loading p ih hl
        rw [hnil]
        exact after_busy p _ (start_busy L gw p.run).2.1
      · exact ih
    | submitPayment gw =>
      simp only [PageState.step]
      split
      · rename_i hoff
        have hl : p.run.s.isLoading = false := by
          simp [paymentOffered, submitDisabled] at hoff; exact hoff.2
        have hnil := idle_of_not_loading p ih hl
        rw [hnil]
        exact after_busy p _ (start_busy L gw p.run).2.2.1
      · exact ih
    | submitSetStatus gw =>
      simp only [PageState.step]
      split
      · rename_i hoff
        have hl : p.run.s.isLoading = false := by
          simp [setStatusOffered, submitDisabled] at hoff; exact hoff.2
        have hnil := idle_of_not_loading p ih hl
        rw [hnil]
        exact after_busy p _ (start_busy L gw p.run).2.2.2.1
      · exact ih
    | clickRefresh gw =>
      simp only [PageState.step]
      split
      · rename_i hoff
        have hl : p.run.s.isLoading = false := by
          simp [refreshOffered] at hoff; exact hoff.2
        have hnil := idle_of_not_loading p ih hl
        rw [hnil]
        exact after_busy p _ (start_busy L gw p.run).2.2.2.2
      · exact ih
    | clickDisconnect =>
      simp only [PageState.step]
      split
      · exact ih
      · exact ih
    | clickView v =>
      simp only [PageState.step]
      split
      · exact ih
      · exact ih
    | typeRegisterName x =>
      simp only [PageState.step]
      split
      · exact ih
      · exact ih
    | typePaymentRecipient x =>
      simp only [PageState.step]
      split
      · exact ih
      · exact ih
    | typePaymentAmount x =>
      simp only [PageState.step]
      split
      · exact ih
      · exact ih
    | typeAdminAddress x =>
      simp only [PageState.step]
      split
      · exact ih
      · exact ih
    | selectAdminStatus n =>
      simp only [PageState.step]
      split
      · exact ih
      · exact ih
    | settle i =>
      simp only [PageState.step]
      rcases ih with hnil | ⟨h, hh, hb⟩
      · simp [hnil]
      · rw [hh]
        cases i with
        | zero =>
          simp only [List.getElem?_cons_zero, List.eraseIdx_cons_zero]
          exact after_busy p _ (fun hn => by rw [resume_busy L h p.run hn]; exact hb)
        | succ n =>
          simp [hh, hb]
    | historyLands j =>
      simp only [PageState.step]
      split
      · exact ih
      · rcases ih with hnil | ⟨h, hh, hb⟩
        · left; exact hnil
        · right
          refine ⟨h, hh, ?_⟩
          simp only [Detached.land]
          rw [fetch_isLoading]
          exact hb

theorem reachable_steps (L : Lib) (es : List PageEvent) :
    ∀ p, PageReachable L p → PageReachable L (p.steps L es) := by
  induction es with
  | nil => intro p hp; exact hp
  | cons e es ih =>
    intro p hp
    exact ih (p.step L e) (PageReachable.step p e hp)

/-- C14: in every state the page can reach, at most one handler is
suspended at an `await`, and whenever one is, `isLoading` is true; and in
every state where `isLoading` is true, submitting the register, payment or
set-status form starts nothing: the page, with its log of gateway calls and
its handlers in flight, is left exactly as it was.  So a second mutating
action is never issued while one is in flight. -/
theorem busy_flag_blocks_submissions (L : Lib) (p : PageState)
    (hr : PageReachable L p) :
    p.inflight.length ≤ 1 ∧
      (p.inflight ≠ [] → p.run.s.isLoading = true) ∧
      (p.run.s.isLoading = true → ∀ gw,
        p.step L (.submitRegister gw) = p ∧ p.step L (.submitPayment gw) = p ∧
          p.step L (.submitSetStatus gw) = p) ∧
      (p.inflight ≠ [] → ∀ gw,
        (p.step L (.submitRegister gw)).run.log = p.run.log ∧
          (p.step L (.submitPayment gw)).run.log = p.run.log ∧
          (p.step L (.submitSetStatus gw)).run.log = p.run.log ∧
          (p.step L (.submitRegister gw)).inflight = p.inflight ∧
          (p.step L (.submitPayment gw)).inflight = p.inflight ∧
          (p.step L (.submitSetStatus gw)).inflight = p.inflight) := by
  have hinv := busy_invariant L p hr
  have hblock : p.run.s.isLoading = true → ∀ gw,
      p.step L (.submitRegister gw) = p ∧ p.step L (.submitPayment gw) = p ∧
        p.step L (.submitSetStatus gw) = p := by
    intro hl gw
    refine ⟨?_, ?_, ?_⟩
    · simp [PageState.step, registerOffered, submitDisabled, hl]
    · simp [PageState.step, paymentOffered, submitDisabled, hl]
    · simp [PageState.step, setStatusOffered, submitDisabled, hl]
  have hbusy : p.inflight ≠ [] → p.run.s.isLoading = true := by
    intro hne
    rcases hinv with hnil | ⟨h, -, hb⟩
    · exact absurd hnil hne
    · exact hb
  refine ⟨?_, hbusy, hblock, ?_⟩
  · rcases hinv with hnil | ⟨h, hh, -⟩
    · simp [hnil]
    · simp [hh]
  · intro hne gw
    obtain ⟨h1, h2, h3⟩ := hblock (hbusy hne) gw
    rw [h1, h2, h3]
    exact ⟨rfl, rfl, rfl, rfl, rfl, rfl⟩

theorem busy_flag_blocks_submissions_witness :
    PageReachable sampleLib pagePaying ∧ pagePaying.inflight.length = 1 ∧
      paymentValid sampleLib pagePaying.run.s = true ∧
      pagePaying.run.s.isLoading = true ∧
      (pagePaying.step sampleLib (.submitPayment sampleGateway)).run.log =
        pagePaying.run.log := by
  have hr : PageReachable sampleLib pagePaying :=
    reachable_steps sampleLib payingTrace _ PageReachable.initial
  have hlen : pagePaying.inflight.length = 1 := by decide
  have hne : pagePaying.inflight ≠ [] := by
    intro h
    rw [h] at hlen
    cases hlen
  have h := busy_flag_blocks_submissions sampleLib pagePaying hr
  exact ⟨hr, hlen, by decide, h.2.1 hne, (h.2.2.2 hne sampleGateway).2.1⟩

/-! ## The admin view after an interrupted connection -/

/-- C7 on the code: with every gateway naming alice as the owner whenever
`owner()` answers, the page reaches, by Connect, Disconnect, a view change
and the continuations of the two connections, a settled state in which
`AdminView` is rendered while the connected account is bob, who is not the
owner.  Disconnect is clicked while alice's `owner()` call is pending (her
account already stored); her connection then writes `isOwner = true` and
her name on the disconnected page, and bob's connection, whose `owner()`
call fails, leaves both in place. -/
theorem admin_view_reached_by_non_owner :
    PageReachable sampleLib pageAfterRace ∧
      (∀ e ∈ raceTrace, e.ownerIs alice) ∧
      (PageState.initial.steps sampleLib (raceTrace.take 3)).run.s.account = some alice ∧
      (PageState.initial.steps sampleLib (raceTrace.take 3)).inflight.length = 1 ∧
      (PageState.initial.steps sampleLib (raceTrace.take 6)).run.s.account = none ∧
      (PageState.initial.steps sampleLib (raceTrace.take 6)).run.s.isOwner = true ∧
      (PageState.initial.steps sampleLib (raceTrace.take 6)).run.s.isLoading = false ∧
      pageAfterRace.inflight.length = 0 ∧
      pageAfterRace.run.s.isLoading = false ∧
      adminViewRendered pageAfterRace.run.s = true ∧
      pageAfterRace.run.s.isOwner = true ∧
      pageAfterRace.run.s.account = some bob ∧
      sampleLib.toLowerCase bob ≠ sampleLib.toLowerCase alice := by
  have hr : PageReachable sampleLib pageAfterRace :=
    reachable_steps sampleLib raceTrace _ PageReachable.initial
  have hown : ∀ e ∈ raceTrace, e.ownerIs alice := by
    intro e he
    simp only [raceTrace, List.mem_cons, List.mem_singleton, List.mem_nil_iff,
      or_false] at he
    rcases he with rfl | rfl | rfl | rfl | rfl | rfl | rfl | rfl | rfl | rfl | rfl
    all_goals first
      | exact trivial
      | (intro o h; cases h; rfl)
      | (intro o h; cases h)
  exact ⟨hr, hown, by decide⟩

end AntiFraud
